import Mathlib

/-
Verification of the StorageCluster reconciliation engine of the
openshift/ocs-operator repository.

The Go source is shallowly embedded: every Kubernetes client call
(Get/Create/Update/Delete/Status-Update) becomes an explicit operation on a
deterministic in-memory object store, recorded in an operation trace so that
theorems can speak about which reads and writes a reconcile pass issues.
Errors are modelled as `Option String` / `Except String` values carrying the
error message built by the source.  Machine integers are `Nat` (no overflow is
possible on the counts involved), time-outs and real time are not modelled
(network-probe outcomes come from an explicit environment), and the one
floating-point field of the source (a pool target-size ratio) is omitted.

Two generations of the code base coexist in the repository and both are
embedded: the legacy reconciler `ReconcileStorageCluster`
(pkg/controller/storagecluster, which also holds the external-secret
synthesizer) and the current reconciler `StorageClusterReconciler`
(controllers/storagecluster, which holds the storage-class manager and the
object-store ensurer).
-/

set_option autoImplicit false

namespace OCS

/-- Kubernetes object metadata, restricted to the fields the embedded code
reads or writes: name, annotations, owner references (by owner name) and the
deletion timestamp (`none` = not marked for deletion). -/
structure ObjectMeta where
  name : String
  annotations : List (String × String)
  ownerReferences : List String
  deletionTimestamp : Option Nat
deriving Repr, DecidableEq

/-- A status condition (custom-resource-status conditions/v1), keyed by type.
The last-transition timestamp is not modelled (no real time). -/
structure Condition where
  ctype : String
  cstatus : String
  reason : String
  message : String
deriving Repr, DecidableEq

/-- Association-list lookup by string key. -/
def kvFind (l : List (String × String)) (k : String) : Option String :=
  match l with
  | [] => none
  | (k', v) :: rest => if k' = k then some v else kvFind rest k

/-- Association-list insert-or-replace by string key. -/
def kvPut (l : List (String × String)) (k v : String) : List (String × String) :=
  match l with
  | [] => [(k, v)]
  | (k', v') :: rest => if k' = k then (k, v) :: rest else (k', v') :: kvPut rest k v

/-- Association-list delete by string key. -/
def kvDel (l : List (String × String)) (k : String) : List (String × String) :=
  match l with
  | [] => []
  | (k', v') :: rest => if k' = k then kvDel rest k else (k', v') :: kvDel rest k

/-- Go `reflect.DeepEqual` on `map[string]string`: equality of key sets and of
the value at every key, independent of representation order. -/
def mapEq (a b : List (String × String)) : Bool :=
  ((a ++ b).all fun p => kvFind a p.1 = kvFind b p.1)

/-- Generic object-store lookup by name. -/
def objFind {α : Type} (l : List (String × α)) (k : String) : Option α :=
  match l with
  | [] => none
  | (k', v) :: rest => if k' = k then some v else objFind rest k

/-- Generic object-store insert-or-replace by name. -/
def objPut {α : Type} (l : List (String × α)) (k : String) (v : α) : List (String × α) :=
  match l with
  | [] => [(k, v)]
  | (k', v') :: rest => if k' = k then (k, v) :: rest else (k', v') :: objPut rest k v

/-- Generic object-store delete by name. -/
def objDel {α : Type} (l : List (String × α)) (k : String) : List (String × α) :=
  match l with
  | [] => []
  | (k', v') :: rest => if k' = k then objDel rest k else (k', v') :: objDel rest k

/-- Per-kind reconcile management options
(`ManageCephBlockPools` / `ManageCephFilesystems` / `ManageCephObjectStores`
of api/v1/storagecluster_types.go; the snapshot-class flag is not read by the
embedded code and is omitted). -/
structure ManagedKindSpec where
  reconcileStrategy : String
  disableStorageClass : Bool
deriving Repr, DecidableEq

/-- `ManagedResourcesSpec` of api/v1/storagecluster_types.go (kinds read by
the embedded code). -/
structure ManagedResourcesSpec where
  cephBlockPools : ManagedKindSpec
  cephFilesystems : ManagedKindSpec
  cephObjectStores : ManagedKindSpec
deriving Repr, DecidableEq

/-- A persistent-volume-claim template, restricted to the storage-class name
the embedded code actually copies. -/
structure PVCTemplate where
  storageClassName : Option String
deriving Repr, DecidableEq

/-- `StorageDeviceSet` of api/v1/storagecluster_types.go (fields read by the
embedded code). -/
structure StorageDeviceSet where
  name : String
  count : Nat
  dataPVCTemplate : PVCTemplate
deriving Repr, DecidableEq

/-- `ExternalStorageClusterSpec` of api/v1/storagecluster_types.go. -/
structure ExternalStorageClusterSpec where
  enable : Bool
deriving Repr, DecidableEq

/-- `StorageClusterSpec` of api/v1/storagecluster_types.go (fields read by the
embedded code). -/
structure StorageClusterSpec where
  hostNetwork : Bool
  externalStorage : ExternalStorageClusterSpec
  monPVCTemplate : Option PVCTemplate
  storageDeviceSets : List StorageDeviceSet
  managedResources : ManagedResourcesSpec
deriving Repr, DecidableEq

/-- `StorageClusterStatus` of api/v1/storagecluster_types.go (fields read or
written by the embedded code; related objects are tracked by name). -/
structure StorageClusterStatus where
  phase : String
  conditions : List Condition
  relatedObjects : List String
  failureDomain : String
  externalSecretHash : String
deriving Repr, DecidableEq

/-- The top-level `StorageCluster` object.  `ns` is its namespace. -/
structure StorageCluster where
  name : String
  ns : String
  spec : StorageClusterSpec
  status : StorageClusterStatus
deriving Repr, DecidableEq

/-- A `storagev1.StorageClass` (fields the embedded code constructs or
compares).  `reclaimPolicy` and `allowVolumeExpansion` are optional exactly as
the Go pointer fields are. -/
structure StorageClass where
  meta : ObjectMeta
  provisioner : String
  reclaimPolicy : String
  allowVolumeExpansion : Option Bool
  parameters : List (String × String)
deriving Repr, DecidableEq

/-- A replicated ceph pool spec (failure domain and replica size; the
floating-point target-size ratio of the source is omitted). -/
structure PoolSpec where
  failureDomain : String
  replicatedSize : Nat
deriving Repr, DecidableEq

/-- A ceph object-store gateway spec (fields the embedded code constructs). -/
structure GatewaySpec where
  port : Nat
  instances : Nat
  placement : String
  externalRgwEndpoints : List String
deriving Repr, DecidableEq

/-- `cephv1.ObjectStoreSpec` (fields the embedded code constructs).
`healthCheckInterval` is the bucket health-check interval set only by the
external-mode constructor. -/
structure ObjectStoreSpec where
  preservePoolsOnDelete : Bool
  dataPool : PoolSpec
  metadataPool : PoolSpec
  gateway : GatewaySpec
  healthCheckInterval : Option String
deriving Repr, DecidableEq

/-- A `cephv1.CephObjectStore`. -/
structure CephObjectStore where
  meta : ObjectMeta
  spec : ObjectStoreSpec
deriving Repr, DecidableEq

/-- `cephv1.MonSpec` (fields the embedded code constructs). -/
structure MonSpec where
  count : Nat
  allowMultiplePerNode : Bool
  volumeClaimTemplate : Option PVCTemplate
deriving Repr, DecidableEq

/-- A `rook StorageClassDeviceSet` inside the engine-cluster spec (fields the
embedded code reads or writes; placement is tracked as a symbolic tag). -/
structure CephDeviceSet where
  name : String
  count : Nat
  placement : String
deriving Repr, DecidableEq

/-- `cephv1.ClusterSpec` (fields the embedded code constructs or compares;
the remaining fields of the source are build-time constants and are collapsed
into the constant fields kept here). -/
structure ClusterSpec where
  cephImage : String
  mon : MonSpec
  hostNetwork : Bool
  dataDirHostPath : String
  topologyAware : Bool
  deviceSets : List CephDeviceSet
deriving Repr, DecidableEq

/-- The status of a `cephv1.CephCluster` (the `State` string the embedded code
inspects; empty string = not reporting). -/
structure CephClusterStatus where
  state : String
deriving Repr, DecidableEq

/-- A `cephv1.CephCluster`. -/
structure CephCluster where
  meta : ObjectMeta
  spec : ClusterSpec
  status : CephClusterStatus
deriving Repr, DecidableEq

/-- A `cephv1.CephBlockPool` dependency: the embedded code only reads its
status phase (`none` = the object reports no status yet). -/
structure CephBlockPool where
  meta : ObjectMeta
  status : Option String
deriving Repr, DecidableEq

/-- A `cephv1.CephFilesystem` dependency: the embedded code only reads its
status phase (`none` = the object reports no status yet). -/
structure CephFilesystem where
  meta : ObjectMeta
  status : Option String
deriving Repr, DecidableEq

/-- A `corev1.ConfigMap`. -/
structure ConfigMap where
  meta : ObjectMeta
  data : List (String × String)
deriving Repr, DecidableEq

/-- A `corev1.Secret` synthesized from an external record (values kept as
strings; the byte conversion of the source is identity here). -/
structure SecretObj where
  meta : ObjectMeta
  data : List (String × String)
deriving Repr, DecidableEq

/-- `ExternalResource` of the external-secret payload: one tagged record. -/
structure ExternalResource where
  kind : String
  name : String
  data : List (String × String)
deriving Repr, DecidableEq

/-- The raw byte content of the external-cluster-details secret, abstracted:
either bytes that JSON-decode to a record list, or malformed bytes.  This
keeps the two observables the code extracts from the raw bytes — their digest
and their decode result — while abstracting the JSON syntax itself. -/
inductive ExtPayload where
  | records (rs : List ExternalResource)
  | malformed (raw : String)
deriving Repr, DecidableEq

/-- One operation issued against the dependent-object store. -/
inductive Op where
  | getStorageClass (name : String)
  | createStorageClass (sc : StorageClass)
  | deleteStorageClass (name : String)
  | updateStorageClass (sc : StorageClass)
  | getCephObjectStore (name : String)
  | createCephObjectStore (os : CephObjectStore)
  | updateCephObjectStore (os : CephObjectStore)
  | getCephCluster (name : String)
  | createCephCluster (cc : CephCluster)
  | updateCephCluster (cc : CephCluster)
  | getCephBlockPool (name : String)
  | getCephFilesystem (name : String)
  | getConfigMap (name : String)
  | createConfigMap (cm : ConfigMap)
  | updateConfigMap (cm : ConfigMap)
  | getSecret (name : String)
  | createSecret (s : SecretObj)
  | statusUpdate (inst : StorageCluster)
deriving Repr, DecidableEq

/-- The deterministic dependent-object store: one association list per object
kind, plus the one well-known external-cluster-details secret (`none` = that
secret does not exist). -/
structure Store where
  storageClasses : List (String × StorageClass)
  cephObjectStores : List (String × CephObjectStore)
  cephClusters : List (String × CephCluster)
  cephBlockPools : List (String × CephBlockPool)
  cephFilesystems : List (String × CephFilesystem)
  configMaps : List (String × ConfigMap)
  secrets : List (String × SecretObj)
  extSecret : Option ExtPayload
deriving Repr, DecidableEq

/-- The external world read by the engine: probe reachability of an endpoint,
IP-resolution success, and the detected platform of the cluster. -/
structure Env where
  reachable : String → Bool
  validIP : String → Bool
  platform : String

/-! ## Constants

The reconcile-strategy and phase string constants live in repository files
that are not part of the provided sources (controllers/storagecluster and
controllers/util); their values are modelled from the spec, which names the
strategies Manage / Init / Ignore and the phases Ready / Progressing / Error /
Expanding.  All comparisons in the embedded code are against these symbolic
constants, so only their distinctness matters. -/

/-- Modelled from the spec: the empty reconcile strategy (treated as Manage). -/
def ReconcileStrategyUnknown : String := ""

/-- Modelled from the spec: the Init reconcile strategy. -/
def ReconcileStrategyInit : String := "init"

/-- Modelled from the spec: the Ignore reconcile strategy. -/
def ReconcileStrategyIgnore : String := "ignore"

/-- Modelled from the spec: the Manage reconcile strategy. -/
def ReconcileStrategyManage : String := "manage"

/-- Modelled from the spec: the Ready phase (also the terminal phase a
pool/filesystem dependency must report). -/
def PhaseReady : String := "Ready"

/-- Modelled from the spec: the Progressing phase. -/
def PhaseProgressing : String := "Progressing"

/-- Modelled from the spec: the Error phase. -/
def PhaseError : String := "Error"

/-- Modelled from the spec: the Not-Ready phase. -/
def PhaseNotReady : String := "Not Ready"

/-- Modelled from the spec: the informational Expanding phase. -/
def PhaseClusterExpanding : String := "Expanding"

/-- `externalClusterDetailsSecret` constant of the external synthesizer. -/
def externalClusterDetailsSecret : String := "rook-ceph-external-cluster-details"

/-- `cephFsStorageClassName` constant. -/
def cephFsStorageClassName : String := "cephfs"

/-- `cephRbdStorageClassName` constant. -/
def cephRbdStorageClassName : String := "ceph-rbd"

/-- `cephRgwStorageClassName` constant. -/
def cephRgwStorageClassName : String := "ceph-rgw"

/-- `externalCephRgwEndpointKey` constant. -/
def externalCephRgwEndpointKey : String := "endpoint"

/-- `rookCephOperatorConfigName` constant. -/
def rookCephOperatorConfigName : String := "rook-ceph-operator-config"

/-- `rookEnableCephFSCSIKey` constant. -/
def rookEnableCephFSCSIKey : String := "ROOK_CSI_ENABLE_CEPHFS"

/-- `ReconcileFailed` reason constant of api/v1/storagecluster_types.go. -/
def ReconcileFailed : String := "ReconcileFailed"

/-- Modelled from the spec: the set of cloud platforms on which the engine
avoids creating object storage (the platform identities are abstract; only
membership is ever tested). -/
def AvoidObjectStorePlatforms : List String := ["aws", "gcp", "azure"]

/-- `avoidObjectStore`: whether the given platform is one where object
storage is avoided. -/
def avoidObjectStore (p : String) : Bool := AvoidObjectStorePlatforms.contains p

/-! ## Name generators

The generators live in a repository file not under the provided sources.
The SC names are fixed by the repository test `TestStorageClasses`, which
expects `ocsinit-cephfs`, `ocsinit-ceph-rbd` and `ocsinit-ceph-rgw` for a
cluster named `ocsinit`; the filesystem name matches the `fsName` parameter
`<name>-cephfilesystem` built in storageclasses.go; the block-pool and
object-store names follow the same `<name>-<kind>` convention (modelled from
the spec). -/

/-- StorageClass name for the filesystem-backed class. -/
def generateNameForCephFilesystemSC (inst : StorageCluster) : String :=
  inst.name ++ "-cephfs"

/-- StorageClass name for the block-backed class (thin: empty suffix,
thick: `-thick`). -/
def generateNameForCephBlockPoolSC (inst : StorageCluster) (suffix : String) : String :=
  inst.name ++ "-ceph-rbd" ++ suffix

/-- StorageClass name for the object-gateway-backed class. -/
def generateNameForCephRgwSC (inst : StorageCluster) : String :=
  inst.name ++ "-ceph-rgw"

/-- Name of the CephBlockPool dependency. -/
def generateNameForCephBlockPool (inst : StorageCluster) : String :=
  inst.name ++ "-cephblockpool"

/-- Name of the CephFilesystem dependency. -/
def generateNameForCephFilesystem (inst : StorageCluster) : String :=
  inst.name ++ "-cephfilesystem"

/-- Name of the CephObjectStore child. -/
def generateNameForCephObjectStore (inst : StorageCluster) : String :=
  inst.name ++ "-cephobjectstore"

/-! ## StorageClass manager (controllers/storagecluster, storageclasses part
of the provided cephobjectstores.go file) -/

/-- `StorageClassConfiguration` of the storage-class manager: ephemeral,
recomputed every pass. -/
structure StorageClassConfiguration where
  storageClass : StorageClass
  reconcileStrategy : String
  disable : Bool
deriving Repr, DecidableEq

/-- `newCephFilesystemStorageClassConfiguration`. -/
def newCephFilesystemStorageClassConfiguration (initData : StorageCluster) :
    StorageClassConfiguration :=
  let managementSpec := initData.spec.managedResources.cephFilesystems
  { storageClass :=
      { meta :=
          { name := generateNameForCephFilesystemSC initData
            annotations := [("description", "Provides RWO and RWX Filesystem volumes")]
            ownerReferences := []
            deletionTimestamp := none }
        provisioner := initData.ns ++ ".cephfs.csi.ceph.com"
        reclaimPolicy := "Delete"
        allowVolumeExpansion := some true
        parameters :=
          [ ("clusterID", initData.ns)
          , ("fsName", initData.name ++ "-cephfilesystem")
          , ("csi.storage.k8s.io/provisioner-secret-name", "rook-csi-cephfs-provisioner")
          , ("csi.storage.k8s.io/provisioner-secret-namespace", initData.ns)
          , ("csi.storage.k8s.io/node-stage-secret-name", "rook-csi-cephfs-node")
          , ("csi.storage.k8s.io/node-stage-secret-namespace", initData.ns)
          , ("csi.storage.k8s.io/controller-expand-secret-name", "rook-csi-cephfs-provisioner")
          , ("csi.storage.k8s.io/controller-expand-secret-namespace", initData.ns) ] }
    reconcileStrategy := managementSpec.reconcileStrategy
    disable := managementSpec.disableStorageClass }

/-- `newCephBlockPoolStorageClassConfiguration`. -/
def newCephBlockPoolStorageClassConfiguration (initData : StorageCluster)
    (thickProvision : Bool) : StorageClassConfiguration :=
  let thickProvisionStr := if thickProvision then "true" else "false"
  let storageClassSuffix := if thickProvision then "-thick" else ""
  let managementSpec := initData.spec.managedResources.cephBlockPools
  { storageClass :=
      { meta :=
          { name := generateNameForCephBlockPoolSC initData storageClassSuffix
            annotations :=
              [("description", "Provides RWO Filesystem volumes, and RWO and RWX Block volumes")]
            ownerReferences := []
            deletionTimestamp := none }
        provisioner := initData.ns ++ ".rbd.csi.ceph.com"
        reclaimPolicy := "Delete"
        allowVolumeExpansion := some true
        parameters :=
          [ ("clusterID", initData.ns)
          , ("pool", generateNameForCephBlockPool initData)
          , ("imageFeatures", "layering")
          , ("csi.storage.k8s.io/fstype", "ext4")
          , ("imageFormat", "2")
          , ("thickProvision", thickProvisionStr)
          , ("csi.storage.k8s.io/provisioner-secret-name", "rook-csi-rbd-provisioner")
          , ("csi.storage.k8s.io/provisioner-secret-namespace", initData.ns)
          , ("csi.storage.k8s.io/node-stage-secret-name", "rook-csi-rbd-node")
          , ("csi.storage.k8s.io/node-stage-secret-namespace", initData.ns)
          , ("csi.storage.k8s.io/controller-expand-secret-name", "rook-csi-rbd-provisioner")
          , ("csi.storage.k8s.io/controller-expand-secret-namespace", initData.ns) ] }
    reconcileStrategy := managementSpec.reconcileStrategy
    disable := managementSpec.disableStorageClass }

/-- `newCephOBCStorageClassConfiguration`. -/
def newCephOBCStorageClassConfiguration (initData : StorageCluster) :
    StorageClassConfiguration :=
  let managementSpec := initData.spec.managedResources.cephObjectStores
  { storageClass :=
      { meta :=
          { name := generateNameForCephRgwSC initData
            annotations := [("description", "Provides Object Bucket Claims (OBCs)")]
            ownerReferences := []
            deletionTimestamp := none }
        provisioner := initData.ns ++ ".ceph.rook.io/bucket"
        reclaimPolicy := "Delete"
        allowVolumeExpansion := none
        parameters :=
          [ ("objectStoreNamespace", initData.ns)
          , ("region", "us-east-1")
          , ("objectStoreName", generateNameForCephObjectStore initData) ] }
    reconcileStrategy := managementSpec.reconcileStrategy
    disable := managementSpec.disableStorageClass }

namespace StorageClusterReconciler

/-- `PlatformsShouldAvoidObjectStore`: platform detection is deterministic
here, so the error branch of the source never fires. -/
def PlatformsShouldAvoidObjectStore (env : Env) : Bool :=
  avoidObjectStore env.platform

/-- `newStorageClassConfigurations`: the three base configurations, plus the
OBC configuration only when external storage is enabled or the platform is
not one where object storage is avoided. -/
def newStorageClassConfigurations (env : Env) (initData : StorageCluster) :
    List StorageClassConfiguration :=
  let ret :=
    [ newCephFilesystemStorageClassConfiguration initData
    , newCephBlockPoolStorageClassConfiguration initData false
    , newCephBlockPoolStorageClassConfiguration initData true ]
  if initData.spec.externalStorage.enable || !PlatformsShouldAvoidObjectStore env then
    ret ++ [newCephOBCStorageClassConfiguration initData]
  else
    ret

/-- One iteration of the `createStorageClasses` loop, for one configuration:
skip on Ignore/disable; create when absent; leave untouched on Init; error
when the existing class is marked for deletion; delete and recreate on
parameter drift; otherwise nothing. -/
def processSCC (scc : StorageClassConfiguration) (s : Store) :
    Store × List Op × Option String :=
  if scc.reconcileStrategy = ReconcileStrategyIgnore || scc.disable then
    (s, [], none)
  else
    let sc := scc.storageClass
    match objFind s.storageClasses sc.meta.name with
    | none =>
        ({ s with storageClasses := objPut s.storageClasses sc.meta.name sc },
         [Op.getStorageClass sc.meta.name, Op.createStorageClass sc], none)
    | some existing =>
        if scc.reconcileStrategy = ReconcileStrategyInit then
          (s, [Op.getStorageClass sc.meta.name], none)
        else if existing.meta.deletionTimestamp ≠ none then
          (s, [Op.getStorageClass sc.meta.name],
           some ("failed to restore StorageClass  " ++ existing.meta.name ++
                 " because it is marked for deletion"))
        else if !mapEq sc.parameters existing.parameters then
          ({ s with storageClasses :=
               objPut (objDel s.storageClasses sc.meta.name) sc.meta.name sc },
           [Op.getStorageClass sc.meta.name, Op.deleteStorageClass sc.meta.name,
            Op.createStorageClass sc], none)
        else
          (s, [Op.getStorageClass sc.meta.name], none)

/-- `createStorageClasses`: process the configurations in order, stopping at
the first error. -/
def createStorageClasses (sccs : List StorageClassConfiguration) (s : Store) :
    Store × List Op × Option String :=
  match sccs with
  | [] => (s, [], none)
  | scc :: rest =>
      match processSCC scc s with
      | (s', ops, none) =>
          let (s'', ops', e) := createStorageClasses rest s'
          (s'', ops ++ ops', e)
      | (s', ops, some e) => (s', ops, some e)

/-- The CephBlockPool readiness gate of `ocsStorageClass.ensureCreated`:
absent, status-less, or any phase other than Ready fails the gate. -/
def cephBlockPoolGate (inst : StorageCluster) (s : Store) :
    List Op × Option String :=
  let key := generateNameForCephBlockPool inst
  ([Op.getCephBlockPool key],
   match objFind s.cephBlockPools key with
   | none => some ("cephBlockPool " ++ key ++ " not found")
   | some pool =>
       match pool.status with
       | none => some ("cephBlockPool " ++ key ++ " is not reporting status")
       | some phase =>
           if phase ≠ PhaseReady then
             some ("cephBlockPool " ++ key ++ " is not " ++ PhaseReady)
           else none)

/-- The CephFilesystem readiness gate of `ocsStorageClass.ensureCreated`. -/
def cephFilesystemGate (inst : StorageCluster) (s : Store) :
    List Op × Option String :=
  let key := generateNameForCephFilesystem inst
  ([Op.getCephFilesystem key],
   match objFind s.cephFilesystems key with
   | none => some ("cephFilesystem " ++ key ++ " not found")
   | some fsys =>
       match fsys.status with
       | none => some ("cephFilesystem " ++ key ++ " is not reporting status")
       | some phase =>
           if phase ≠ PhaseReady then
             some ("cephFilesystem " ++ key ++ " is not " ++ PhaseReady)
           else none)

end StorageClusterReconciler

namespace ocsStorageClass

/-- `ocsStorageClass.ensureCreated`: compute the configurations, run the two
dependency gates (each skipped when the corresponding disable flag is set,
each ending the pass on failure), then converge the classes. -/
def ensureCreated (env : Env) (inst : StorageCluster) (s : Store) :
    Store × List Op × Option String :=
  let scs := StorageClusterReconciler.newStorageClassConfigurations env inst
  let (ops1, e1) :=
    if inst.spec.managedResources.cephBlockPools.disableStorageClass then
      ([], none)
    else
      StorageClusterReconciler.cephBlockPoolGate inst s
  match e1 with
  | some e => (s, ops1, some e)
  | none =>
      let (ops2, e2) :=
        if inst.spec.managedResources.cephFilesystems.disableStorageClass then
          ([], none)
        else
          StorageClusterReconciler.cephFilesystemGate inst s
      match e2 with
      | some e => (s, ops1 ++ ops2, some e)
      | none =>
          let (s', ops3, e3) := StorageClusterReconciler.createStorageClasses scs s
          (s', ops1 ++ ops2 ++ ops3, e3)

end ocsStorageClass

namespace StorageClusterReconciler

/-- `newCephObjectStoreInstances` (controllers/storagecluster): the single
desired CephObjectStore.  Placement is kept as the symbolic tag the source
requests ("rgw"); the resource requirements and the floating-point
target-size ratio are omitted.  `SetControllerReference` becomes recording
the owner's name. -/
def newCephObjectStoreInstances (initData : StorageCluster) : List CephObjectStore :=
  [ { meta :=
        { name := generateNameForCephObjectStore initData
          annotations := []
          ownerReferences := [initData.name]
          deletionTimestamp := none }
      spec :=
        { preservePoolsOnDelete := false
          dataPool := { failureDomain := initData.status.failureDomain, replicatedSize := 3 }
          metadataPool := { failureDomain := initData.status.failureDomain, replicatedSize := 3 }
          gateway :=
            { port := 80, instances := 2, placement := "rgw", externalRgwEndpoints := [] }
          healthCheckInterval := none } } ]

/-- `createCephObjectStores` (controllers/storagecluster): for each desired
store — found with Init strategy: stop successfully; found but marked for
deletion: fail; found otherwise: restore the original spec by a whole-object
update that keeps the existing metadata except the owner references; absent:
create. -/
def createCephObjectStores (stores : List CephObjectStore) (inst : StorageCluster)
    (s : Store) : Store × List Op × Option String :=
  match stores with
  | [] => (s, [], none)
  | cos :: rest =>
      match objFind s.cephObjectStores cos.meta.name with
      | some existing =>
          if inst.spec.managedResources.cephObjectStores.reconcileStrategy =
              ReconcileStrategyInit then
            (s, [Op.getCephObjectStore cos.meta.name], none)
          else if existing.meta.deletionTimestamp ≠ none then
            (s, [Op.getCephObjectStore cos.meta.name],
             some ("failed to restore cephobjectstore object " ++ existing.meta.name ++
                   " because it is marked for deletion"))
          else
            let updated :=
              { cos with meta :=
                  { existing.meta with ownerReferences := cos.meta.ownerReferences } }
            let s' := { s with cephObjectStores :=
                          objPut s.cephObjectStores cos.meta.name updated }
            let (s'', ops', e) := createCephObjectStores rest inst s'
            (s'', Op.getCephObjectStore cos.meta.name :: Op.updateCephObjectStore updated ::
                  ops', e)
      | none =>
          let s' := { s with cephObjectStores := objPut s.cephObjectStores cos.meta.name cos }
          let (s'', ops', e) := createCephObjectStores rest inst s'
          (s'', Op.getCephObjectStore cos.meta.name :: Op.createCephObjectStore cos :: ops', e)

/-- `ensureCephObjectStores` (controllers/storagecluster): nothing on Ignore
strategy or on a platform where object storage is avoided; otherwise build
the desired stores and converge them. -/
def ensureCephObjectStores (env : Env) (inst : StorageCluster) (s : Store) :
    Store × List Op × Option String :=
  if inst.spec.managedResources.cephObjectStores.reconcileStrategy =
      ReconcileStrategyIgnore then
    (s, [], none)
  else if avoidObjectStore env.platform then
    (s, [], none)
  else
    createCephObjectStores (newCephObjectStoreInstances inst) inst s

end StorageClusterReconciler

/-! ## Legacy reconciler (pkg/controller/storagecluster/reconcile.go and the
external-secret synthesizer) -/

/-- `conditionsv1.SetStatusCondition`: replace the condition with the same
type, or append (transition-time bookkeeping is not modelled). -/
def setCondition (conds : List Condition) (c : Condition) : List Condition :=
  match conds with
  | [] => [c]
  | c' :: rest => if c'.ctype = c.ctype then c :: rest else c' :: setCondition rest c

/-- Modelled from the spec: `statusutil.SetErrorCondition` (pkg/controller/util
is not among the provided sources) records a Failed condition carrying the
given reason and the error text. -/
def setErrorCondition (conds : List Condition) (reason message : String) :
    List Condition :=
  setCondition conds
    { ctype := "ReconcileComplete", cstatus := "False", reason := reason, message := message }

/-- The per-pass state of the legacy reconciler: the fetched top-level object,
the in-memory negative-condition accumulator `r.conditions`, the
`r.monitoringIP` field, the object store, and the trace of issued client
operations. -/
structure RState where
  inst : StorageCluster
  conditions : List Condition
  monitoringIP : String
  store : Store
  trace : List Op
deriving Repr, DecidableEq

/-- An ensurer of the legacy `Reconcile` loop: it may mutate the pass state
(the instance is passed by pointer in the source) and reports an optional
error. -/
def Ensurer : Type := RState → RState × Option String

/-- Modelled from the spec: `newStorageClassDeviceSets` (not among the
provided sources) derives the engine-cluster device-set list from the
top-level device-set list, one entry per set carrying its name and count. -/
def newStorageClassDeviceSets (sets : List StorageDeviceSet) : List CephDeviceSet :=
  sets.map fun ds => { name := ds.name, count := ds.count, placement := "" }

/-- `newCephCluster` (pkg/controller/storagecluster/reconcile.go): the desired
engine-cluster child.  Constant sub-specs that no embedded claim reads
(mgr modules, disruption management, rbd mirroring, monitoring, placement
spec) are collapsed; the per-device-set placement overwrite is kept as the
symbolic `defaultOSDPlacement` tag. -/
def newCephCluster (sc : StorageCluster) (cephImage : String) : CephCluster :=
  let deviceSets :=
    (newStorageClassDeviceSets sc.spec.storageDeviceSets).map fun d =>
      { d with placement := "defaultOSDPlacement" }
  let monVCT : Option PVCTemplate :=
    match sc.spec.monPVCTemplate with
    | some t => some t
    | none =>
        match sc.spec.storageDeviceSets with
        | ds :: _ => some { storageClassName := ds.dataPVCTemplate.storageClassName }
        | [] => none
  { meta :=
      { name := sc.name
        annotations := []
        ownerReferences := []
        deletionTimestamp := none }
    spec :=
      { cephImage := cephImage
        mon := { count := 3, allowMultiplePerNode := false, volumeClaimTemplate := monVCT }
        hostNetwork := sc.spec.hostNetwork
        dataDirHostPath := "/var/lib/rook"
        topologyAware := true
        deviceSets := deviceSets }
    status := { state := "" } }

/-- The capacity-increase detection loop of `ensureCephCluster`: some device
set of the found spec has a desired device set of the same name with a
strictly greater count (the source's nested loop with double break). -/
def expandingSignal (foundSets desiredSets : List CephDeviceSet) : Bool :=
  foundSets.any fun f => desiredSets.any fun d => f.name = d.name && d.count > f.count

/-- Modelled from the spec: `statusutil.MapCephClusterNoConditions` — a child
with empty status is a neutral "not yet reporting" signal recorded as a
Progressing-style condition in the in-pass accumulator. -/
def MapCephClusterNoConditions (conds : List Condition) (reason message : String) :
    List Condition :=
  setCondition conds
    { ctype := "Progressing", cstatus := "True", reason := reason, message := message }

/-- Modelled from the spec: `statusutil.MapCephClusterNegativeConditions` —
non-empty child status is translated into zero or more negative conditions
via a fault-state mapping (a faulted state yields a Degraded condition). -/
def MapCephClusterNegativeConditions (conds : List Condition) (found : CephCluster) :
    List Condition :=
  if found.status.state = "Error" then
    setCondition conds
      { ctype := "Degraded", cstatus := "True", reason := "ClusterStateError"
        message := "CephCluster is in error state" }
  else
    conds

/-- `objectreferencesv1.SetObjectReference`: record a related object by name,
once. -/
def setObjectReference (refs : List String) (name : String) : List String :=
  if refs.contains name then refs else refs ++ [name]

namespace ReconcileStorageCluster

/-- `ensureCephCluster` (pkg/controller/storagecluster/reconcile.go): build
the desired child; absent: create; present with a different spec: detect the
capacity-increase signal (setting the informational Expanding phase), then
overwrite the whole spec and update; present and equal: record the related
object and translate the child status into conditions. -/
def ensureCephCluster (cephImage : String) (s : RState) : RState × Option String :=
  let cephCluster₀ := newCephCluster s.inst cephImage
  let cephCluster := { cephCluster₀ with meta :=
                         { cephCluster₀.meta with ownerReferences := [s.inst.name] } }
  match objFind s.store.cephClusters cephCluster.meta.name with
  | none =>
      let store' := { s.store with
        cephClusters := objPut s.store.cephClusters cephCluster.meta.name cephCluster }
      let trace' := s.trace ++
        [Op.getCephCluster cephCluster.meta.name, Op.createCephCluster cephCluster]
      ({ s with store := store', trace := trace' }, none)
  | some found =>
      if cephCluster.spec ≠ found.spec then
        let inst :=
          if expandingSignal found.spec.deviceSets cephCluster.spec.deviceSets then
            { s.inst with status := { s.inst.status with phase := PhaseClusterExpanding } }
          else
            s.inst
        let updated := { found with spec := cephCluster.spec }
        let store' := { s.store with
          cephClusters := objPut s.store.cephClusters cephCluster.meta.name updated }
        let trace' := s.trace ++
          [Op.getCephCluster cephCluster.meta.name, Op.updateCephCluster updated]
        ({ s with inst := inst, store := store', trace := trace' }, none)
      else
        let inst := { s.inst with status := { s.inst.status with
          relatedObjects := setObjectReference s.inst.status.relatedObjects found.meta.name } }
        let conds :=
          if found.status.state = "" then
            MapCephClusterNoConditions s.conditions "CephClusterStatus"
              "CephCluster resource is not reporting status"
          else
            MapCephClusterNegativeConditions s.conditions found
        let trace' := s.trace ++ [Op.getCephCluster cephCluster.meta.name]
        ({ s with inst := inst, conditions := conds, trace := trace' }, none)

/-- The ensurer loop of `Reconcile` (pkg/controller/storagecluster/
reconcile.go lines 149-167): run the fixed sequence in order; at the first
error, set the Failed condition carrying the error text, set the Error
phase, persist the status (the persist error is only logged) and return the
ensurer's error. -/
def runEnsurers (fs : List Ensurer) (s : RState) : RState × Option String :=
  match fs with
  | [] => (s, none)
  | f :: rest =>
      match f s with
      | (s', none) => runEnsurers rest s'
      | (s', some e) =>
          let message := "Error while reconciling: " ++ e
          let inst :=
            { s'.inst with status :=
                { s'.inst.status with
                    conditions := setErrorCondition s'.inst.status.conditions
                                    ReconcileFailed message
                    phase := PhaseError } }
          ({ s' with inst := inst, trace := s'.trace ++ [Op.statusUpdate inst] }, some e)

end ReconcileStorageCluster

/-! ## External-secret synthesizer (legacy code base, provided as an unnamed
source file of package storagecluster) -/

/-- Serialization of a key/value map used by the abstract digest below. -/
def encodeKV (l : List (String × String)) : String :=
  l.foldl (fun acc kv => acc ++ "(" ++ kv.1 ++ "=" ++ kv.2 ++ ")") ""

/-- Serialization of one external record used by the abstract digest below. -/
def encodeRecord (r : ExternalResource) : String :=
  "<" ++ r.kind ++ ";" ++ r.name ++ ";" ++ encodeKV r.data ++ ">"

/-- Serialization of a payload used by the abstract digest below. -/
def encodePayload : ExtPayload → String
  | ExtPayload.records rs => "records:" ++ rs.foldl (fun acc r => acc ++ encodeRecord r) ""
  | ExtPayload.malformed raw => "malformed:" ++ raw

/-- `sha512sum`: the SHA-512 content digest of the raw secret bytes, modelled
as an abstract deterministic digest of the payload (the hash function itself
is outside the scope of the embedding; only digest equality is ever used). -/
def sha512sum (tobeHashed : ExtPayload) : String :=
  "sha512:" ++ encodePayload tobeHashed

/-- `checkRGWEndpoint`: bounded-timeout TCP reachability probe of an endpoint
(the timeout itself is real time and is not modelled; the outcome comes from
the environment). -/
def checkRGWEndpoint (env : Env) (endpoint : String) : Option String :=
  if env.reachable endpoint then none
  else some ("dial tcp " ++ endpoint ++ ": connect: connection refused")

/-- `net.JoinHostPort` (without the IPv6 bracket special case, which no
embedded claim exercises). -/
def joinHostPort (host port : String) : String := host ++ ":" ++ port

/-- `validateMonitoringEndpoint`: the monitoring IP must resolve and the
joined endpoint must be reachable within the probe timeout. -/
def validateMonitoringEndpoint (env : Env) (monitoringIP monitoringPort : String) :
    Option String :=
  if !env.validIP monitoringIP then
    some ("lookup " ++ monitoringIP ++ ": no such host")
  else if !env.reachable (joinHostPort monitoringIP monitoringPort) then
    some ("Monitoring Endpoint (" ++ joinHostPort monitoringIP monitoringPort ++
          ") is not reachable")
  else none

/-- `net.SplitHostPort`, restricted to splitting at the last colon (the IPv6
bracket syntax is not modelled). -/
def splitHostPort (s : String) : Except String (String × String) :=
  let parts := s.splitOn ":"
  match parts with
  | [] => Except.error ("address " ++ s ++ ": missing port in address")
  | [_] => Except.error ("address " ++ s ++ ": missing port in address")
  | _ => Except.ok (String.intercalate ":" parts.dropLast, parts.getLastD "")

/-- `newExternalGatewaySpec`: split the rgw endpoint into host and port, both
of which must be non-degenerate. -/
def newExternalGatewaySpec (rgwEndpoint : String) : Except String GatewaySpec :=
  match splitHostPort rgwEndpoint with
  | Except.error e => Except.error e
  | Except.ok (hostIP, portStr) =>
      if hostIP = "" then
        Except.error "An empty rgw host IP address found"
      else
        match portStr.toNat? with
        | none => Except.error ("invalid rgw port provided: " ++ portStr)
        | some port =>
            Except.ok { port := port, instances := 0, placement := ""
                        externalRgwEndpoints := [hostIP] }

namespace ReconcileStorageCluster

/-- `newExternalCephObjectStoreInstances`: no object store for a blank
endpoint (`none`, not an error); otherwise one store carrying the parsed
gateway spec and an enabled 60s bucket health check. -/
def newExternalCephObjectStoreInstances (initData : StorageCluster)
    (rgwEndpoint : String) : Except String (Option (List CephObjectStore)) :=
  let trimmed := rgwEndpoint.trim
  if trimmed = "" then Except.ok none
  else
    match newExternalGatewaySpec trimmed with
    | Except.error e => Except.error e
    | Except.ok gatewaySpec =>
        Except.ok (some
          [ { meta :=
                { name := generateNameForCephObjectStore initData
                  annotations := []
                  ownerReferences := []
                  deletionTimestamp := none }
              spec :=
                { preservePoolsOnDelete := false
                  dataPool := { failureDomain := "", replicatedSize := 0 }
                  metadataPool := { failureDomain := "", replicatedSize := 0 }
                  gateway := gatewaySpec
                  healthCheckInterval := some "60s" } } ])

/-- `retrieveSecret`: fetch a secret by name.  The deterministic store keeps
the one external-cluster-details secret this code path ever retrieves. -/
def retrieveSecret (secretName : String) (s : RState) : RState × Except String ExtPayload :=
  let s' := { s with trace := s.trace ++ [Op.getSecret secretName] }
  match s.store.extSecret with
  | some payload => (s', Except.ok payload)
  | none => (s', Except.error ("secrets " ++ secretName ++ " not found"))

/-- `externalSecretDataChecksum`: digest of the current external-secret
bytes. -/
def externalSecretDataChecksum (s : RState) : RState × Except String String :=
  match retrieveSecret externalClusterDetailsSecret s with
  | (s', Except.error e) => (s', Except.error e)
  | (s', Except.ok payload) => (s', Except.ok (sha512sum payload))

/-- `sameExternalSecretData`: recompute the digest; any error reports
"changed" (false); on a differing digest the in-memory status checksum is
overwritten with the new digest before reporting "changed". -/
def sameExternalSecretData (s : RState) : RState × Bool :=
  match externalSecretDataChecksum s with
  | (s', Except.error _) => (s', false)
  | (s', Except.ok extSecretChecksum) =>
      if s'.inst.status.externalSecretHash = extSecretChecksum then
        (s', true)
      else
        let inst := { s'.inst with status :=
                        { s'.inst.status with externalSecretHash := extSecretChecksum } }
        ({ s' with inst := inst }, false)

/-- `retrieveExternalSecretData`: fetch the external secret and JSON-decode
its payload into records (the decoder's exact message is not modelled). -/
def retrieveExternalSecretData (s : RState) : RState × Except String (List ExternalResource) :=
  match retrieveSecret externalClusterDetailsSecret s with
  | (s', Except.error e) => (s', Except.error e)
  | (s', Except.ok payload) =>
      match payload with
      | ExtPayload.records data => (s', Except.ok data)
      | ExtPayload.malformed _ => (s', Except.error "could not parse json blob")

/-- `setRookCSICephFS`: read the rook operator config map; if the CSI-cephfs
flag already has the requested value do nothing, otherwise update it. -/
def setRookCSICephFS (enableDisableFlag : Bool) (s : RState) : RState × Option String :=
  let s' := { s with trace := s.trace ++ [Op.getConfigMap rookCephOperatorConfigName] }
  match objFind s.store.configMaps rookCephOperatorConfigName with
  | none => (s', some ("configmaps " ++ rookCephOperatorConfigName ++ " not found"))
  | some cfg =>
      let enableDisableFlagStr := if enableDisableFlag then "true" else "false"
      if (kvFind cfg.data rookEnableCephFSCSIKey).getD "" = enableDisableFlagStr then
        (s', none)
      else
        let cfg' := { cfg with data := kvPut cfg.data rookEnableCephFSCSIKey
                                 enableDisableFlagStr }
        let store' := { s.store with
          configMaps := objPut s.store.configMaps rookCephOperatorConfigName cfg' }
        ({ s' with store := store', trace := s'.trace ++ [Op.updateConfigMap cfg'] }, none)

/-- `createExternalStorageClusterConfigMap`: get-or-create only, never
updated after first creation. -/
def createExternalStorageClusterConfigMap (cm : ConfigMap) (s : RState) :
    RState × Option String :=
  let s' := { s with trace := s.trace ++ [Op.getConfigMap cm.meta.name] }
  match objFind s.store.configMaps cm.meta.name with
  | some _ => (s', none)
  | none =>
      let store' := { s.store with configMaps := objPut s.store.configMaps cm.meta.name cm }
      ({ s' with store := store', trace := s'.trace ++ [Op.createConfigMap cm] }, none)

/-- `createExternalStorageClusterSecret`: get-or-create only, never updated
after first creation. -/
def createExternalStorageClusterSecret (sec : SecretObj) (s : RState) :
    RState × Option String :=
  let s' := { s with trace := s.trace ++ [Op.getSecret sec.meta.name] }
  match objFind s.store.secrets sec.meta.name with
  | some _ => (s', none)
  | none =>
      let store' := { s.store with secrets := objPut s.store.secrets sec.meta.name sec }
      ({ s' with store := store', trace := s'.trace ++ [Op.createSecret sec] }, none)

end ReconcileStorageCluster

/-- The three storage classes the legacy external path pre-builds, at the
fixed indexes 0 (filesystem), 1 (block) and 2 (object gateway) used by the
record dispatch. -/
structure TriSC where
  fs : StorageClass
  rbd : StorageClass
  rgw : StorageClass
deriving Repr, DecidableEq

/-- The loop-carried accumulator of `createExternalStorageClusterResources`:
the pre-built classes (whose parameter maps the records mutate in place), the
rook-CSI-cephfs flag, the per-index "available" slots (only classes named by
a record are created), and the pending external object stores. -/
structure ExtAcc where
  scs : TriSC
  enableRookCSICephFS : Bool
  availFs : Option StorageClass
  availRbd : Option StorageClass
  availRgw : Option StorageClass
  extCephObjectStores : Option (List CephObjectStore)
deriving Repr, DecidableEq

/-- Go's map-merge loop `for k, v := range d.Data { sc.Parameters[k] = v }`. -/
def mergeParams (params upd : List (String × String)) : List (String × String) :=
  upd.foldl (fun acc p => kvPut acc p.1 p.2) params

namespace ReconcileStorageCluster

/-- Modelled from the spec: the legacy `newStorageClasses` (not among the
provided sources) pre-builds the filesystem, block and object-gateway
classes; the repository test fixes their names (`<name>-cephfs`,
`<name>-ceph-rbd`, `<name>-ceph-rgw` at indexes 0, 1, 2) and their parameter
sets match the current generation's configurations.  On the external path the
object class is always present. -/
def newStorageClasses (initData : StorageCluster) : TriSC :=
  { fs := (newCephFilesystemStorageClassConfiguration initData).storageClass
    rbd := (newCephBlockPoolStorageClassConfiguration initData false).storageClass
    rgw := (newCephOBCStorageClassConfiguration initData).storageClass }

/-- Modelled from the spec: the legacy `createStorageClasses` (not among the
provided sources) converges each non-nil pre-built class: absent ⇒ create;
present with drifted parameters ⇒ delete then recreate; otherwise leave
untouched. -/
def createStorageClassesLegacy (scs : List (Option StorageClass)) (s : RState) :
    RState × Option String :=
  match scs with
  | [] => (s, none)
  | none :: rest => createStorageClassesLegacy rest s
  | some sc :: rest =>
      let s₁ := { s with trace := s.trace ++ [Op.getStorageClass sc.meta.name] }
      match objFind s.store.storageClasses sc.meta.name with
      | none =>
          let store' := { s₁.store with
            storageClasses := objPut s₁.store.storageClasses sc.meta.name sc }
          createStorageClassesLegacy rest
            { s₁ with store := store', trace := s₁.trace ++ [Op.createStorageClass sc] }
      | some existing =>
          if !mapEq sc.parameters existing.parameters then
            let store' := { s₁.store with
              storageClasses :=
                objPut (objDel s₁.store.storageClasses sc.meta.name) sc.meta.name sc }
            createStorageClassesLegacy rest
              { s₁ with store := store'
                        trace := s₁.trace ++ [Op.deleteStorageClass sc.meta.name,
                                              Op.createStorageClass sc] }
          else
            createStorageClassesLegacy rest s₁

/-- Modelled from the spec: the legacy `createCephObjectStores` (not among
the provided sources) follows the ensurer pattern: absent ⇒ create with
ownership; present with a different spec ⇒ whole-spec overwrite; otherwise
leave untouched. -/
def createCephObjectStoresLegacy (stores : List CephObjectStore) (s : RState) :
    RState × Option String :=
  match stores with
  | [] => (s, none)
  | cos :: rest =>
      let s₁ := { s with trace := s.trace ++ [Op.getCephObjectStore cos.meta.name] }
      match objFind s.store.cephObjectStores cos.meta.name with
      | none =>
          let store' := { s₁.store with
            cephObjectStores := objPut s₁.store.cephObjectStores cos.meta.name cos }
          createCephObjectStoresLegacy rest
            { s₁ with store := store'
                      trace := s₁.trace ++ [Op.createCephObjectStore cos] }
      | some found =>
          if found.spec ≠ cos.spec then
            let updated := { found with spec := cos.spec }
            let store' := { s₁.store with
              cephObjectStores := objPut s₁.store.cephObjectStores cos.meta.name updated }
            createCephObjectStoresLegacy rest
              { s₁ with store := store'
                        trace := s₁.trace ++ [Op.updateCephObjectStore updated] }
          else
            createCephObjectStoresLegacy rest s₁

/-- One iteration of the record-dispatch loop of
`createExternalStorageClusterResources` (switch on the record kind).
A `StorageClass` record whose name matches none of the three fixed names
makes the source write a nil pointer into slot 0 and, when the record also
carries data, dereference that nil pointer — the latter is modelled as a
pass-failing error. -/
def processExternalRecord (env : Env) (d : ExternalResource) (acc : ExtAcc) (s : RState) :
    (RState × ExtAcc) × Option String :=
  let objectMeta : ObjectMeta :=
    { name := d.name, annotations := [], ownerReferences := [s.inst.name]
      deletionTimestamp := none }
  if d.kind = "CephCluster" then
    match kvFind d.data "MonitoringEndpoint" with
    | none =>
        ((s, acc), some ("Monitoring Endpoint not present in the external cluster secret " ++
                         externalClusterDetailsSecret))
    | some monitoringIP =>
        match kvFind d.data "MonitoringPort" with
        | none =>
            ((s, acc), some ("Monitoring Port not present in the external cluster secret " ++
                             externalClusterDetailsSecret))
        | some monitoringPort =>
            match validateMonitoringEndpoint env monitoringIP monitoringPort with
            | some e => ((s, acc), some e)
            | none => (({ s with monitoringIP := monitoringIP }, acc), none)
  else if d.kind = "ConfigMap" then
    let cm : ConfigMap := { meta := objectMeta, data := d.data }
    match createExternalStorageClusterConfigMap cm s with
    | (s', none) => ((s', acc), none)
    | (s', some e) => ((s', acc), some e)
  else if d.kind = "Secret" then
    let sec : SecretObj := { meta := objectMeta, data := d.data }
    match createExternalStorageClusterSecret sec s with
    | (s', none) => ((s', acc), none)
    | (s', some e) => ((s', acc), some e)
  else if d.kind = "StorageClass" then
    if d.name = cephFsStorageClassName then
      let sc := { acc.scs.fs with parameters := mergeParams acc.scs.fs.parameters d.data }
      ((s, { acc with scs := { acc.scs with fs := sc }, availFs := some sc
                      enableRookCSICephFS := true }), none)
    else if d.name = cephRbdStorageClassName then
      let sc := { acc.scs.rbd with parameters := mergeParams acc.scs.rbd.parameters d.data }
      ((s, { acc with scs := { acc.scs with rbd := sc }, availRbd := some sc }), none)
    else if d.name = cephRgwStorageClassName then
      let rgwEndpoint := (kvFind d.data externalCephRgwEndpointKey).getD ""
      match checkRGWEndpoint env rgwEndpoint with
      | some e => ((s, acc), some e)
      | none =>
          match newExternalCephObjectStoreInstances s.inst rgwEndpoint with
          | Except.error e => ((s, acc), some e)
          | Except.ok extStores =>
              let data' := kvDel d.data externalCephRgwEndpointKey
              let sc := { acc.scs.rgw with
                parameters := mergeParams acc.scs.rgw.parameters data' }
              ((s, { acc with scs := { acc.scs with rgw := sc }, availRgw := some sc
                              extCephObjectStores := extStores }), none)
    else
      if d.data = [] then
        ((s, { acc with availFs := none }), none)
      else
        ((s, acc), some "runtime error: invalid memory address or nil pointer dereference")
  else
    ((s, acc), none)

/-- The record-dispatch loop of `createExternalStorageClusterResources`:
process records in order, aborting at the first error. -/
def processExternalRecords (env : Env) (data : List ExternalResource) (acc : ExtAcc)
    (s : RState) : (RState × ExtAcc) × Option String :=
  match data with
  | [] => ((s, acc), none)
  | d :: rest =>
      match processExternalRecord env d acc s with
      | ((s', acc'), none) => processExternalRecords env rest acc' s'
      | ((s', acc'), some e) => ((s', acc'), some e)

/-- `createExternalStorageClusterResources`: pre-build the classes, fetch and
decode the payload, dispatch per record, then — only after the whole record
set processed cleanly — create the available storage classes, set the
rook-CSI-cephfs flag, and create the pending external object stores. -/
def createExternalStorageClusterResources (env : Env) (s : RState) :
    RState × Option String :=
  let scs := newStorageClasses s.inst
  let acc₀ : ExtAcc :=
    { scs := scs, enableRookCSICephFS := false, availFs := none, availRbd := none
      availRgw := none, extCephObjectStores := none }
  match retrieveExternalSecretData s with
  | (s₁, Except.error e) => (s₁, some e)
  | (s₁, Except.ok data) =>
      match processExternalRecords env data acc₀ s₁ with
      | ((s₂, _), some e) => (s₂, some e)
      | ((s₂, acc), none) =>
          match createStorageClassesLegacy [acc.availFs, acc.availRbd, acc.availRgw] s₂ with
          | (s₃, some e) => (s₃, some e)
          | (s₃, none) =>
              match setRookCSICephFS acc.enableRookCSICephFS s₃ with
              | (s₄, some e) => (s₄, some e)
              | (s₄, none) =>
                  match acc.extCephObjectStores with
                  | some stores => createCephObjectStoresLegacy stores s₄
                  | none => (s₄, none)

/-- `ensureExternalStorageClusterResources`: skip synthesis entirely when the
recomputed digest matches the persisted checksum, otherwise synthesize. -/
def ensureExternalStorageClusterResources (env : Env) (s : RState) :
    RState × Option String :=
  match sameExternalSecretData s with
  | (s', true) => (s', none)
  | (s', false) => createExternalStorageClusterResources env s'

end ReconcileStorageCluster

/-! ## Trace observations -/

/-- Is the operation a storage-class create? -/
def isCreateSC : Op → Bool
  | Op.createStorageClass _ => true
  | _ => false

/-- Is the operation a storage-class delete? -/
def isDeleteSC : Op → Bool
  | Op.deleteStorageClass _ => true
  | _ => false

/-- Is the operation a storage-class in-place update? -/
def isUpdateSC : Op → Bool
  | Op.updateStorageClass _ => true
  | _ => false

/-- Is the operation any storage-class write (create, delete or update)? -/
def isWriteSC (op : Op) : Bool :=
  isCreateSC op || isDeleteSC op || isUpdateSC op

/-- Is the operation a storage-class create of the class of the given name? -/
def isCreateSCNamed (n : String) : Op → Bool
  | Op.createStorageClass sc => sc.meta.name = n
  | _ => false

/-- Is the operation a ceph-object-store create? -/
def isCreateOS : Op → Bool
  | Op.createCephObjectStore _ => true
  | _ => false

/-- Number of operations of the trace satisfying the given observation. -/
def countOps (tr : List Op) (p : Op → Bool) : Nat :=
  (tr.filter p).length

/-! ## Shared concrete fixtures used by witnesses and counterexamples -/

/-- A storage cluster with Manage policy everywhere and external mode off. -/
def instA : StorageCluster :=
  { name := "ocsinit"
    ns := "openshift-storage"
    spec :=
      { hostNetwork := false
        externalStorage := { enable := false }
        monPVCTemplate := none
        storageDeviceSets :=
          [{ name := "set0", count := 1, dataPVCTemplate := { storageClassName := some "gp2" } }]
        managedResources :=
          { cephBlockPools :=
              { reconcileStrategy := ReconcileStrategyManage, disableStorageClass := false }
            cephFilesystems :=
              { reconcileStrategy := ReconcileStrategyManage, disableStorageClass := false }
            cephObjectStores :=
              { reconcileStrategy := ReconcileStrategyManage, disableStorageClass := false } } }
    status :=
      { phase := "", conditions := [], relatedObjects := [], failureDomain := "rack"
        externalSecretHash := "" } }

/-- The same cluster in external mode. -/
def instExt : StorageCluster :=
  { instA with spec := { instA.spec with externalStorage := { enable := true } } }

/-- The empty object store. -/
def emptyStore : Store :=
  { storageClasses := [], cephObjectStores := [], cephClusters := [], cephBlockPools := []
    cephFilesystems := [], configMaps := [], secrets := [], extSecret := none }

/-- An environment where every probe succeeds, on a platform that is not a
cloud provider with native object storage. -/
def envOk : Env :=
  { reachable := fun _ => true, validIP := fun _ => true, platform := "baremetal" }

/-! ## Helper lemmas -/

theorem processSCC_no_update (scc : StorageClassConfiguration) (s : Store) (sc : StorageClass) :
    Op.updateStorageClass sc ∉ (StorageClusterReconciler.processSCC scc s).2.1 := by
  unfold StorageClusterReconciler.processSCC
  rcases h : objFind s.storageClasses scc.storageClass.meta.name with _ | existing
  all_goals simp only [h]
  all_goals repeat' split
  all_goals simp

theorem createStorageClasses_no_update (sccs : List StorageClassConfiguration) (s : Store)
    (sc : StorageClass) :
    Op.updateStorageClass sc ∉ (StorageClusterReconciler.createStorageClasses sccs s).2.1 := by
  induction sccs generalizing s with
  | nil => simp [StorageClusterReconciler.createStorageClasses]
  | cons scc rest ih =>
      unfold StorageClusterReconciler.createStorageClasses
      have hs := processSCC_no_update scc s sc
      rcases hps : StorageClusterReconciler.processSCC scc s with ⟨s', ops, e⟩
      rw [hps] at hs
      cases e with
      | none =>
          simp only
          rcases hcs : StorageClusterReconciler.createStorageClasses rest s' with ⟨s'', ops', e'⟩
          have := ih s'
          rw [hcs] at this
          simp only [List.mem_append]
          intro h
          rcases h with h | h
          · exact hs h
          · exact this h
      | some e => exact hs

/-! ## Claim C3 -/

/-- A Manage-strategy block storage-class configuration for `instA`. -/
def sccDrifted : StorageClassConfiguration :=
  newCephBlockPoolStorageClassConfiguration instA false

/-- A stored copy of that class with drifted parameters, already marked for
deletion. -/
def existingMarked : StorageClass :=
  { sccDrifted.storageClass with
      meta := { sccDrifted.storageClass.meta with deletionTimestamp := some 1 }
      parameters := [("clusterID", "other")] }

/-- A store holding only that deletion-marked drifted class. -/
def storeMarked : Store :=
  { emptyStore with
      storageClasses := [(sccDrifted.storageClass.meta.name, existingMarked)] }

/-- A stored copy of the class with drifted parameters and no deletion mark. -/
def existingDrifted : StorageClass :=
  { sccDrifted.storageClass with parameters := [("clusterID", "other")] }

/-- A store holding only that drifted class. -/
def storeDrifted : Store :=
  { emptyStore with
      storageClasses := [(sccDrifted.storageClass.meta.name, existingDrifted)] }

/-- Claim C3, as frozen, is false: for a storage class managed with the
Manage strategy that already exists with a drifted parameter map but is
marked for deletion, `createStorageClasses` issues no delete and no create —
it fails the pass instead. -/
theorem claim_C3_counterexample :
    (sccDrifted.reconcileStrategy = ReconcileStrategyManage
      ∧ objFind storeMarked.storageClasses sccDrifted.storageClass.meta.name =
          some existingMarked
      ∧ mapEq sccDrifted.storageClass.parameters existingMarked.parameters = false)
    ∧ countOps (StorageClusterReconciler.createStorageClasses
        [sccDrifted] storeMarked).2.1 isDeleteSC = 0
    ∧ countOps (StorageClusterReconciler.createStorageClasses
        [sccDrifted] storeMarked).2.1 isCreateSC = 0
    ∧ (StorageClusterReconciler.createStorageClasses [sccDrifted] storeMarked).2.2 ≠ none := by
  decide

/-- Claim C3 (amended: the existing class must additionally not be marked for
deletion): on parameter drift of an existing Manage-strategy storage class
not marked for deletion, `createStorageClasses` issues exactly one delete of
the existing class followed by exactly one create of the desired class, and
`createStorageClasses` never issues an in-place storage-class update on any
input. -/
theorem claim_C3 (scc : StorageClassConfiguration) (s : Store) (existing : StorageClass)
    (hstrat : scc.reconcileStrategy = ReconcileStrategyManage)
    (hdis : scc.disable = false)
    (hfound : objFind s.storageClasses scc.storageClass.meta.name = some existing)
    (hts : existing.meta.deletionTimestamp = none)
    (hdrift : mapEq scc.storageClass.parameters existing.parameters = false) :
    StorageClusterReconciler.createStorageClasses [scc] s =
      ({ s with storageClasses := (objPut (objDel s.storageClasses
           scc.storageClass.meta.name) scc.storageClass.meta.name scc.storageClass) },
       [Op.getStorageClass scc.storageClass.meta.name,
        Op.deleteStorageClass scc.storageClass.meta.name,
        Op.createStorageClass scc.storageClass], none)
    ∧ ∀ (sccs : List StorageClassConfiguration) (s' : Store) (sc : StorageClass),
        Op.updateStorageClass sc ∉
          (StorageClusterReconciler.createStorageClasses sccs s').2.1 := by
  refine ⟨?_, fun sccs s' sc => createStorageClasses_no_update sccs s' sc⟩
  unfold StorageClusterReconciler.createStorageClasses
    StorageClusterReconciler.processSCC
  simp [hstrat, hdis, hfound, hts, hdrift, ReconcileStrategyManage, ReconcileStrategyIgnore,
    ReconcileStrategyInit, StorageClusterReconciler.createStorageClasses]

/-- Witness for claim C3 at a concrete drifted, unmarked class. -/
theorem claim_C3_witness :
    mapEq sccDrifted.storageClass.parameters existingDrifted.parameters = false
    ∧ StorageClusterReconciler.createStorageClasses [sccDrifted] storeDrifted =
        ({ storeDrifted with storageClasses := (objPut (objDel storeDrifted.storageClasses
             sccDrifted.storageClass.meta.name) sccDrifted.storageClass.meta.name
             sccDrifted.storageClass) },
         [Op.getStorageClass sccDrifted.storageClass.meta.name,
          Op.deleteStorageClass sccDrifted.storageClass.meta.name,
          Op.createStorageClass sccDrifted.storageClass], none) :=
  ⟨by decide,
   (claim_C3 sccDrifted storeDrifted existingDrifted rfl rfl (by decide) rfl (by decide)).1⟩

/-! ## Claim C10 -/

/-- A minimal object store child used as a fixture. -/
def osSmall : CephObjectStore :=
  { meta := { name := "ocsinit-cephobjectstore", annotations := [], ownerReferences := []
              deletionTimestamp := none }
    spec :=
      { preservePoolsOnDelete := false
        dataPool := { failureDomain := "", replicatedSize := 0 }
        metadataPool := { failureDomain := "", replicatedSize := 0 }
        gateway := { port := 0, instances := 0, placement := "", externalRgwEndpoints := [] }
        healthCheckInterval := none } }

/-- The same object store already marked for deletion. -/
def osSmallMarked : CephObjectStore :=
  { osSmall with meta := { osSmall.meta with deletionTimestamp := some 2 } }

/-- A store holding only that deletion-marked object store. -/
def storeOsMarked : Store :=
  { emptyStore with cephObjectStores := [(osSmall.meta.name, osSmallMarked)] }

/-- Claim C10: an existing Manage-strategy storage class with drifted
parameters that is marked for deletion, and an existing object-store child
(non-Init strategy) marked for deletion, each fail the pass with an error,
with no update, delete or recreate issued for the object and the stored
object left unchanged. -/
theorem claim_C10 :
    (∀ (scc : StorageClassConfiguration) (s : Store) (existing : StorageClass) (t : Nat),
      scc.reconcileStrategy = ReconcileStrategyManage →
      scc.disable = false →
      objFind s.storageClasses scc.storageClass.meta.name = some existing →
      existing.meta.deletionTimestamp = some t →
      mapEq scc.storageClass.parameters existing.parameters = false →
      StorageClusterReconciler.createStorageClasses [scc] s =
        (s, [Op.getStorageClass scc.storageClass.meta.name],
         some ("failed to restore StorageClass  " ++ existing.meta.name ++
               " because it is marked for deletion")))
    ∧ (∀ (cos : CephObjectStore) (inst : StorageCluster) (s : Store)
          (existing : CephObjectStore) (t : Nat),
      inst.spec.managedResources.cephObjectStores.reconcileStrategy =
        ReconcileStrategyManage →
      objFind s.cephObjectStores cos.meta.name = some existing →
      existing.meta.deletionTimestamp = some t →
      StorageClusterReconciler.createCephObjectStores [cos] inst s =
        (s, [Op.getCephObjectStore cos.meta.name],
         some ("failed to restore cephobjectstore object " ++ existing.meta.name ++
               " because it is marked for deletion"))) := by
  constructor
  · intro scc s existing t hstrat hdis hfound hts hdrift
    unfold StorageClusterReconciler.createStorageClasses
      StorageClusterReconciler.processSCC
    simp [hstrat, hdis, hfound, hts, hdrift, ReconcileStrategyManage,
      ReconcileStrategyIgnore, ReconcileStrategyInit]
  · intro cos inst s existing t hstrat hfound hts
    unfold StorageClusterReconciler.createCephObjectStores
    simp [hstrat, hfound, hts, ReconcileStrategyManage, ReconcileStrategyInit]

/-- Witness for claim C10 at concrete deletion-marked objects. -/
theorem claim_C10_witness :
    (objFind storeMarked.storageClasses sccDrifted.storageClass.meta.name =
        some existingMarked
      ∧ StorageClusterReconciler.createStorageClasses [sccDrifted] storeMarked =
          (storeMarked, [Op.getStorageClass sccDrifted.storageClass.meta.name],
           some ("failed to restore StorageClass  " ++ existingMarked.meta.name ++
                 " because it is marked for deletion")))
    ∧ (objFind storeOsMarked.cephObjectStores osSmall.meta.name = some osSmallMarked
      ∧ StorageClusterReconciler.createCephObjectStores [osSmall] instA storeOsMarked =
          (storeOsMarked, [Op.getCephObjectStore osSmall.meta.name],
           some ("failed to restore cephobjectstore object " ++ osSmallMarked.meta.name ++
                 " because it is marked for deletion"))) :=
  ⟨⟨by decide,
    claim_C10.1 sccDrifted storeMarked existingMarked 1 rfl rfl (by decide) rfl (by decide)⟩,
   ⟨by decide,
    claim_C10.2 osSmall instA storeOsMarked osSmallMarked 2 rfl (by decide) rfl⟩⟩

/-! ## Claim C6 -/

@[simp] theorem isCreateSC_get (n : String) : isCreateSC (Op.getStorageClass n) = false := rfl

@[simp] theorem isUpdateSC_get (n : String) : isUpdateSC (Op.getStorageClass n) = false := rfl

@[simp] theorem isDeleteSC_get (n : String) : isDeleteSC (Op.getStorageClass n) = false := rfl

@[simp] theorem isCreateSC_create (sc : StorageClass) :
    isCreateSC (Op.createStorageClass sc) = true := rfl

@[simp] theorem isUpdateSC_create (sc : StorageClass) :
    isUpdateSC (Op.createStorageClass sc) = false := rfl

@[simp] theorem isDeleteSC_create (sc : StorageClass) :
    isDeleteSC (Op.createStorageClass sc) = false := rfl

theorem countOps_append (a b : List Op) (p : Op → Bool) :
    countOps (a ++ b) p = countOps a p + countOps b p := by
  simp [countOps, List.filter_append]

theorem countOps_nil (p : Op → Bool) : countOps [] p = 0 := rfl

theorem countOps_cons (op : Op) (tr : List Op) (p : Op → Bool) :
    countOps (op :: tr) p = (if p op then 1 else 0) + countOps tr p := by
  by_cases h : p op <;> simp [countOps, List.filter_cons, h, Nat.add_comm]

theorem objFind_objPut {α : Type} (l : List (String × α)) (k : String) (v : α) :
    objFind (objPut l k v) k = some v := by
  induction l with
  | nil => simp [objPut, objFind]
  | cons hd tl ih =>
      rcases hd with ⟨k', v'⟩
      by_cases h : k' = k
      · simp [objPut, objFind, h]
      · simp [objPut, objFind, h, ih]

theorem createStorageClasses_init_present (c : StorageClassConfiguration) (s : Store)
    (existing : StorageClass) (hstrat : c.reconcileStrategy = ReconcileStrategyInit)
    (hdis : c.disable = false)
    (hfound : objFind s.storageClasses c.storageClass.meta.name = some existing) :
    StorageClusterReconciler.createStorageClasses [c] s =
      (s, [Op.getStorageClass c.storageClass.meta.name], none) := by
  unfold StorageClusterReconciler.createStorageClasses
    StorageClusterReconciler.processSCC
  simp [hstrat, hdis, hfound, ReconcileStrategyInit, ReconcileStrategyIgnore,
    StorageClusterReconciler.createStorageClasses]

theorem createStorageClasses_create_absent (c : StorageClassConfiguration) (s : Store)
    (hstrat : ¬c.reconcileStrategy = ReconcileStrategyIgnore)
    (hdis : c.disable = false)
    (hfound : objFind s.storageClasses c.storageClass.meta.name = none) :
    StorageClusterReconciler.createStorageClasses [c] s =
      ({ s with storageClasses := (objPut s.storageClasses
           c.storageClass.meta.name c.storageClass) },
       [Op.getStorageClass c.storageClass.meta.name,
        Op.createStorageClass c.storageClass], none) := by
  unfold StorageClusterReconciler.createStorageClasses
    StorageClusterReconciler.processSCC
  simp [hstrat, hdis, hfound, StorageClusterReconciler.createStorageClasses]

/-- A sequence of reconcile passes of the storage-class manager over one
configuration per pass (each pass recomputes its own desired configuration,
which may differ from pass to pass), threading the evolving store and
concatenating the traces. -/
def runSCPasses (cfgs : List StorageClassConfiguration) (s : Store) : Store × List Op :=
  match cfgs with
  | [] => (s, [])
  | c :: rest =>
      let r := StorageClusterReconciler.createStorageClasses [c] s
      let r' := runSCPasses rest r.1
      (r'.1, r.2.1 ++ r'.2)

theorem runSCPasses_init_present (cfgs : List StorageClassConfiguration) (n : String)
    (h : ∀ c ∈ cfgs, c.reconcileStrategy = ReconcileStrategyInit ∧ c.disable = false ∧
         c.storageClass.meta.name = n) :
    ∀ (s : Store) (existing : StorageClass), objFind s.storageClasses n = some existing →
      (runSCPasses cfgs s).1 = s ∧ countOps (runSCPasses cfgs s).2 isCreateSC = 0 ∧
        countOps (runSCPasses cfgs s).2 isUpdateSC = 0 ∧
        countOps (runSCPasses cfgs s).2 isDeleteSC = 0 := by
  induction cfgs with
  | nil =>
      intro s existing _
      simp [runSCPasses, countOps]
  | cons c rest ih =>
      intro s existing hfound
      rcases h c (List.mem_cons_self c rest) with ⟨hstrat, hdis, hname⟩
      have hfound' : objFind s.storageClasses c.storageClass.meta.name = some existing := by
        rw [hname]; exact hfound
      have hpass := createStorageClasses_init_present c s existing hstrat hdis hfound'
      have hrest := ih (fun c' hc' => h c' (List.mem_cons_of_mem c hc')) s existing hfound
      rcases hrest with ⟨h1, h2, h3, h4⟩
      simp only [runSCPasses, hpass]
      refine ⟨h1, ?_, ?_, ?_⟩ <;> simp [countOps_cons, h2, h3, h4]

theorem runSCPasses_init_bound (cfgs : List StorageClassConfiguration) (n : String)
    (h : ∀ c ∈ cfgs, c.reconcileStrategy = ReconcileStrategyInit ∧ c.disable = false ∧
         c.storageClass.meta.name = n) (s : Store) :
    countOps (runSCPasses cfgs s).2 isCreateSC ≤ 1 ∧
      countOps (runSCPasses cfgs s).2 isUpdateSC = 0 ∧
      countOps (runSCPasses cfgs s).2 isDeleteSC = 0 := by
  cases cfgs with
  | nil => simp [runSCPasses, countOps]
  | cons c rest =>
      rcases h c (List.mem_cons_self c rest) with ⟨hstrat, hdis, hname⟩
      rcases hf : objFind s.storageClasses n with _ | existing
      · have hfound' : objFind s.storageClasses c.storageClass.meta.name = none := by
          rw [hname]; exact hf
        have hnig : ¬c.reconcileStrategy = ReconcileStrategyIgnore := by
          rw [hstrat]; decide
        have hpass := createStorageClasses_create_absent c s hnig hdis hfound'
        have hpres : objFind ({ s with storageClasses := (objPut s.storageClasses
            c.storageClass.meta.name c.storageClass) } : Store).storageClasses n =
            some c.storageClass := by
          show objFind (objPut s.storageClasses c.storageClass.meta.name c.storageClass) n =
            some c.storageClass
          rw [← hname]
          exact objFind_objPut s.storageClasses c.storageClass.meta.name c.storageClass
        have hrest := runSCPasses_init_present rest n
          (fun c' hc' => h c' (List.mem_cons_of_mem c hc'))
          { s with storageClasses := (objPut s.storageClasses
              c.storageClass.meta.name c.storageClass) }
          c.storageClass hpres
        rcases hrest with ⟨_, h2, h3, h4⟩
        simp only [runSCPasses, hpass]
        refine ⟨?_, ?_, ?_⟩ <;> simp [countOps_cons, h2, h3, h4]
      · have hall := runSCPasses_init_present (c :: rest) n h s existing hf
        rcases hall with ⟨_, h2, h3, h4⟩
        exact ⟨by rw [h2]; exact Nat.zero_le 1, h3, h4⟩

/-- A cluster whose object-store kind has the Ignore strategy. -/
def instIgnoreOS : StorageCluster :=
  { instA with spec := { instA.spec with managedResources :=
      { instA.spec.managedResources with cephObjectStores :=
          { reconcileStrategy := ReconcileStrategyIgnore, disableStorageClass := false } } } }

/-- A cluster whose object-store kind has the Init strategy. -/
def instInitOS : StorageCluster :=
  { instA with spec := { instA.spec with managedResources :=
      { instA.spec.managedResources with cephObjectStores :=
          { reconcileStrategy := ReconcileStrategyInit, disableStorageClass := false } } } }

/-- An Ignore-strategy storage-class configuration. -/
def sccIgnore : StorageClassConfiguration :=
  { sccDrifted with reconcileStrategy := ReconcileStrategyIgnore }

/-- A store in which the object-store child already exists. -/
def storeOsPresent : Store :=
  { emptyStore with cephObjectStores := [(osSmall.meta.name, osSmall)] }

/-- An Init-strategy storage-class configuration. -/
def sccInit1 : StorageClassConfiguration :=
  { sccDrifted with reconcileStrategy := ReconcileStrategyInit }

/-- The same Init configuration after the desired parameters changed. -/
def sccInit2 : StorageClassConfiguration :=
  { sccInit1 with storageClass :=
      { sccInit1.storageClass with parameters := [("p", "q")] } }

/-- Claim C6: with the Ignore strategy the engine performs no reads or
writes of that kind (the object-store ensurer issues no operation at all,
and an Ignore or disabled storage-class configuration contributes no
operation); with the Init strategy an already-present object store is never
written again, and over any sequence of passes an Init-strategy storage
class is created at most once and never updated or deleted, even when the
desired configuration changes between passes. -/
theorem claim_C6 :
    (∀ (env : Env) (inst : StorageCluster) (s : Store),
      inst.spec.managedResources.cephObjectStores.reconcileStrategy =
        ReconcileStrategyIgnore →
      StorageClusterReconciler.ensureCephObjectStores env inst s = (s, [], none))
    ∧ (∀ (scc : StorageClassConfiguration) (s : Store),
      (scc.reconcileStrategy = ReconcileStrategyIgnore ∨ scc.disable = true) →
      StorageClusterReconciler.processSCC scc s = (s, [], none))
    ∧ (∀ (inst : StorageCluster) (cos : CephObjectStore) (s : Store)
          (existing : CephObjectStore),
      inst.spec.managedResources.cephObjectStores.reconcileStrategy =
        ReconcileStrategyInit →
      objFind s.cephObjectStores cos.meta.name = some existing →
      StorageClusterReconciler.createCephObjectStores [cos] inst s =
        (s, [Op.getCephObjectStore cos.meta.name], none))
    ∧ (∀ (cfgs : List StorageClassConfiguration) (n : String),
      (∀ c ∈ cfgs, c.reconcileStrategy = ReconcileStrategyInit ∧ c.disable = false ∧
        c.storageClass.meta.name = n) →
      ∀ (s : Store),
        countOps (runSCPasses cfgs s).2 isCreateSC ≤ 1 ∧
        countOps (runSCPasses cfgs s).2 isUpdateSC = 0 ∧
        countOps (runSCPasses cfgs s).2 isDeleteSC = 0) := by
  refine ⟨?_, ?_, ?_, fun cfgs n h s => runSCPasses_init_bound cfgs n h s⟩
  · intro env inst s h
    simp [StorageClusterReconciler.ensureCephObjectStores, h]
  · intro scc s h
    rcases h with h | h <;> simp [StorageClusterReconciler.processSCC, h]
  · intro inst cos s existing hstrat hfound
    unfold StorageClusterReconciler.createCephObjectStores
    simp [hstrat, hfound]

/-- Witness for claim C6 at concrete Ignore and Init inputs. -/
theorem claim_C6_witness :
    StorageClusterReconciler.ensureCephObjectStores envOk instIgnoreOS emptyStore =
      (emptyStore, [], none)
    ∧ StorageClusterReconciler.processSCC sccIgnore emptyStore = (emptyStore, [], none)
    ∧ StorageClusterReconciler.createCephObjectStores [osSmall] instInitOS storeOsPresent =
        (storeOsPresent, [Op.getCephObjectStore osSmall.meta.name], none)
    ∧ (countOps (runSCPasses [sccInit1, sccInit2] emptyStore).2 isCreateSC ≤ 1 ∧
       countOps (runSCPasses [sccInit1, sccInit2] emptyStore).2 isUpdateSC = 0 ∧
       countOps (runSCPasses [sccInit1, sccInit2] emptyStore).2 isDeleteSC = 0) :=
  ⟨claim_C6.1 envOk instIgnoreOS emptyStore rfl,
   claim_C6.2.1 sccIgnore emptyStore (Or.inl rfl),
   claim_C6.2.2.1 instInitOS osSmall storeOsPresent osSmall rfl (by decide),
   claim_C6.2.2.2 [sccInit1, sccInit2] "ocsinit-ceph-rbd" (by decide) emptyStore⟩

/-! ## Claim C5 -/

/-- A block pool reporting a non-Ready phase. -/
def bpNotReady : CephBlockPool :=
  { meta := { name := "ocsinit-cephblockpool", annotations := [], ownerReferences := []
              deletionTimestamp := none }
    status := some "Progressing" }

/-- A block pool reporting the Ready phase. -/
def bpReady : CephBlockPool :=
  { bpNotReady with status := some PhaseReady }

/-- A store whose block pool is present but not Ready. -/
def storeBpNotReady : Store :=
  { emptyStore with cephBlockPools := [(generateNameForCephBlockPool instA, bpNotReady)] }

/-- A store whose block pool is Ready but whose filesystem is absent. -/
def storeBpReady : Store :=
  { emptyStore with cephBlockPools := [(generateNameForCephBlockPool instA, bpReady)] }

/-- Claim C5: when the storage-class ensurer runs and the block-pool
dependency cannot be fetched, has no status, or reports a phase other than
Ready (its disable flag being unset), `ensureCreated` returns an error having
issued only the dependency read, leaving the store — hence every storage
class — unchanged; likewise for the filesystem dependency once the block-pool
gate is passed or disabled. -/
theorem claim_C5 :
    (∀ (env : Env) (inst : StorageCluster) (s : Store),
      inst.spec.managedResources.cephBlockPools.disableStorageClass = false →
      (objFind s.cephBlockPools (generateNameForCephBlockPool inst) = none
        ∨ (∃ bp, objFind s.cephBlockPools (generateNameForCephBlockPool inst) = some bp
            ∧ bp.status = none)
        ∨ (∃ bp ph, objFind s.cephBlockPools (generateNameForCephBlockPool inst) = some bp
            ∧ bp.status = some ph ∧ ph ≠ PhaseReady)) →
      ∃ e, ocsStorageClass.ensureCreated env inst s =
        (s, [Op.getCephBlockPool (generateNameForCephBlockPool inst)], some e))
    ∧ (∀ (env : Env) (inst : StorageCluster) (s : Store),
      inst.spec.managedResources.cephFilesystems.disableStorageClass = false →
      (inst.spec.managedResources.cephBlockPools.disableStorageClass = true
        ∨ (∃ bp, objFind s.cephBlockPools (generateNameForCephBlockPool inst) = some bp
            ∧ bp.status = some PhaseReady)) →
      (objFind s.cephFilesystems (generateNameForCephFilesystem inst) = none
        ∨ (∃ fsys, objFind s.cephFilesystems (generateNameForCephFilesystem inst) = some fsys
            ∧ fsys.status = none)
        ∨ (∃ fsys ph, objFind s.cephFilesystems (generateNameForCephFilesystem inst) = some fsys
            ∧ fsys.status = some ph ∧ ph ≠ PhaseReady)) →
      ∃ e ops, ocsStorageClass.ensureCreated env inst s = (s, ops, some e)
        ∧ countOps ops isWriteSC = 0) := by
  constructor
  · intro env inst s hdis hdep
    have hgate : ∃ e, (StorageClusterReconciler.cephBlockPoolGate inst s).2 = some e := by
      unfold StorageClusterReconciler.cephBlockPoolGate
      rcases hdep with h | ⟨bp, h, hst⟩ | ⟨bp, ph, h, hst, hph⟩
      · simp only [h]; exact ⟨_, rfl⟩
      · simp only [h, hst]; exact ⟨_, rfl⟩
      · simp only [h, hst, if_pos hph]; exact ⟨_, rfl⟩
    rcases hgate with ⟨e, hgate⟩
    refine ⟨e, ?_⟩
    unfold ocsStorageClass.ensureCreated
    rw [if_neg (by rw [hdis]; exact Bool.false_ne_true)]
    have hg : StorageClusterReconciler.cephBlockPoolGate inst s =
        ([Op.getCephBlockPool (generateNameForCephBlockPool inst)], some e) := by
      have h1 : (StorageClusterReconciler.cephBlockPoolGate inst s).1 =
          [Op.getCephBlockPool (generateNameForCephBlockPool inst)] := rfl
      rcases hp : StorageClusterReconciler.cephBlockPoolGate inst s with ⟨a, b⟩
      rw [hp] at h1 hgate
      simp at h1 hgate
      rw [h1, hgate]
    rw [hg]
  · intro env inst s hdisf hbp hdep
    have hgate : ∃ e, (StorageClusterReconciler.cephFilesystemGate inst s).2 = some e := by
      unfold StorageClusterReconciler.cephFilesystemGate
      rcases hdep with h | ⟨fsys, h, hst⟩ | ⟨fsys, ph, h, hst, hph⟩
      · simp only [h]; exact ⟨_, rfl⟩
      · simp only [h, hst]; exact ⟨_, rfl⟩
      · simp only [h, hst, if_pos hph]; exact ⟨_, rfl⟩
    rcases hgate with ⟨e, hgate⟩
    have hgf : StorageClusterReconciler.cephFilesystemGate inst s =
        ([Op.getCephFilesystem (generateNameForCephFilesystem inst)], some e) := by
      have h1 : (StorageClusterReconciler.cephFilesystemGate inst s).1 =
          [Op.getCephFilesystem (generateNameForCephFilesystem inst)] := rfl
      rcases hp : StorageClusterReconciler.cephFilesystemGate inst s with ⟨a, b⟩
      rw [hp] at h1 hgate
      simp at h1 hgate
      rw [h1, hgate]
    rcases hbp with hbp | ⟨bp, hbp, hst⟩
    · refine ⟨e, [Op.getCephFilesystem (generateNameForCephFilesystem inst)], ?_, ?_⟩
      · unfold ocsStorageClass.ensureCreated
        rw [if_pos hbp, hgf]
        simp [hdisf]
      · simp [countOps, isWriteSC, isCreateSC, isDeleteSC, isUpdateSC]
    · have hbpass : StorageClusterReconciler.cephBlockPoolGate inst s =
          ([Op.getCephBlockPool (generateNameForCephBlockPool inst)], none) := by
        unfold StorageClusterReconciler.cephBlockPoolGate
        simp only [hbp, hst]
        simp [PhaseReady]
      by_cases hd : inst.spec.managedResources.cephBlockPools.disableStorageClass = true
      · refine ⟨e, [Op.getCephFilesystem (generateNameForCephFilesystem inst)], ?_, ?_⟩
        · unfold ocsStorageClass.ensureCreated
          rw [if_pos hd, hgf]
          simp [hdisf]
        · simp [countOps, isWriteSC, isCreateSC, isDeleteSC, isUpdateSC]
      · refine ⟨e, [Op.getCephBlockPool (generateNameForCephBlockPool inst),
          Op.getCephFilesystem (generateNameForCephFilesystem inst)], ?_, ?_⟩
        · unfold ocsStorageClass.ensureCreated
          rw [if_neg hd, hbpass, hgf]
          simp [hdisf]
        · simp [countOps, isWriteSC, isCreateSC, isDeleteSC, isUpdateSC]

/-- Witness for claim C5 at a not-Ready block pool and at an absent
filesystem. -/
theorem claim_C5_witness :
    (∃ e, ocsStorageClass.ensureCreated envOk instA storeBpNotReady =
       (storeBpNotReady, [Op.getCephBlockPool (generateNameForCephBlockPool instA)], some e))
    ∧ (∃ e ops, ocsStorageClass.ensureCreated envOk instA storeBpReady =
        (storeBpReady, ops, some e) ∧ countOps ops isWriteSC = 0) :=
  ⟨claim_C5.1 envOk instA storeBpNotReady rfl
     (Or.inr (Or.inr ⟨bpNotReady, "Progressing", by decide, rfl, by decide⟩)),
   claim_C5.2 envOk instA storeBpReady rfl
     (Or.inr ⟨bpReady, by decide, rfl⟩)
     (Or.inl rfl)⟩

/-! ## Claim C8 -/

theorem strAppend_left_cancel {n a b : String} (h : n ++ a = n ++ b) : a = b := by
  have hd : (n ++ a).data = (n ++ b).data := congrArg String.data h
  simp [String.data_append] at hd
  exact String.ext hd

theorem strAppend_ne (n : String) {a b : String} (h : a ≠ b) : n ++ a ≠ n ++ b :=
  fun hc => h (strAppend_left_cancel hc)

theorem objFind_objPut_ne {α : Type} (l : List (String × α)) {k k' : String} (v : α)
    (h : k ≠ k') : objFind (objPut l k v) k' = objFind l k' := by
  induction l with
  | nil => simp [objPut, objFind, h]
  | cons hd tl ih =>
      rcases hd with ⟨k₀, v₀⟩
      by_cases h₀ : k₀ = k
      · subst h₀
        simp [objPut, objFind, h]
      · simp [objPut, objFind, h₀, ih]

theorem processSCC_create_absent (c : StorageClassConfiguration) (s : Store)
    (hstrat : ¬c.reconcileStrategy = ReconcileStrategyIgnore)
    (hdis : c.disable = false)
    (hfound : objFind s.storageClasses c.storageClass.meta.name = none) :
    StorageClusterReconciler.processSCC c s =
      ({ s with storageClasses := (objPut s.storageClasses
           c.storageClass.meta.name c.storageClass) },
       [Op.getStorageClass c.storageClass.meta.name,
        Op.createStorageClass c.storageClass], none) := by
  unfold StorageClusterReconciler.processSCC
  simp [hstrat, hdis, hfound]

/-- Trace of a run of the storage-class loop in which every configuration is
freshly created. -/
def allCreateTrace (cfgs : List StorageClassConfiguration) : List Op :=
  cfgs.flatMap fun c =>
    [Op.getStorageClass c.storageClass.meta.name, Op.createStorageClass c.storageClass]

theorem createStorageClasses_all_absent (cfgs : List StorageClassConfiguration) :
    ∀ (s : Store),
    (∀ c ∈ cfgs, ¬c.reconcileStrategy = ReconcileStrategyIgnore ∧ c.disable = false) →
    (∀ c ∈ cfgs, objFind s.storageClasses c.storageClass.meta.name = none) →
    (cfgs.map fun c => c.storageClass.meta.name).Nodup →
    (StorageClusterReconciler.createStorageClasses cfgs s).2.1 = allCreateTrace cfgs
    ∧ (StorageClusterReconciler.createStorageClasses cfgs s).2.2 = none := by
  induction cfgs with
  | nil =>
      intro s _ _ _
      simp [StorageClusterReconciler.createStorageClasses, allCreateTrace]
  | cons c rest ih =>
      intro s hms habs hnd
      rcases hms c (List.mem_cons_self c rest) with ⟨hstrat, hdis⟩
      have hpass := processSCC_create_absent c s hstrat hdis
        (habs c (List.mem_cons_self c rest))
      have hnd' := (List.nodup_cons.mp hnd)
      have habs' : ∀ c' ∈ rest,
          objFind ({ s with storageClasses := (objPut s.storageClasses
            c.storageClass.meta.name c.storageClass) } : Store).storageClasses
            c'.storageClass.meta.name = none := by
        intro c' hc'
        have hne : c.storageClass.meta.name ≠ c'.storageClass.meta.name := by
          intro hcontra
          refine hnd'.1 ?_
          have hmem : c.storageClass.meta.name ∈
              List.map (fun x => x.storageClass.meta.name) rest := by
            rw [hcontra]
            exact List.mem_map_of_mem (fun x => x.storageClass.meta.name) hc'
          exact hmem
        show objFind (objPut s.storageClasses c.storageClass.meta.name c.storageClass)
          c'.storageClass.meta.name = none
        rw [objFind_objPut_ne _ _ hne]
        exact habs c' (List.mem_cons_of_mem c hc')
      have hrest := ih _ (fun c' hc' => hms c' (List.mem_cons_of_mem c hc')) habs' hnd'.2
      unfold StorageClusterReconciler.createStorageClasses
      rw [hpass]
      simp only [allCreateTrace, List.flatMap_cons]
      rcases hr : StorageClusterReconciler.createStorageClasses rest
          { s with storageClasses := (objPut s.storageClasses
              c.storageClass.meta.name c.storageClass) } with ⟨s'', ops', e'⟩
      rw [hr] at hrest
      simp at hrest
      simp [hrest.1, hrest.2, allCreateTrace]

theorem countOps_allCreateTrace (cfgs : List StorageClassConfiguration) :
    countOps (allCreateTrace cfgs) isCreateSC = cfgs.length := by
  induction cfgs with
  | nil => simp [allCreateTrace, countOps]
  | cons c rest ih =>
      simp only [allCreateTrace, List.flatMap_cons] at ih ⊢
      simp [countOps_cons, ih]
      omega

theorem countOps_allCreateTrace_named (cfgs : List StorageClassConfiguration) (n : String) :
    countOps (allCreateTrace cfgs) (isCreateSCNamed n) =
      (cfgs.filter fun c => c.storageClass.meta.name = n).length := by
  induction cfgs with
  | nil => simp [allCreateTrace, countOps]
  | cons c rest ih =>
      simp only [allCreateTrace, List.flatMap_cons] at ih ⊢
      by_cases h : c.storageClass.meta.name = n
      · simp [countOps_cons, ih, isCreateSCNamed, h, List.filter_cons]
        omega
      · simp [countOps_cons, ih, isCreateSCNamed, h, List.filter_cons]

theorem scName_fs (inst : StorageCluster) :
    (newCephFilesystemStorageClassConfiguration inst).storageClass.meta.name =
      inst.name ++ "-cephfs" := rfl

theorem scName_rbd (inst : StorageCluster) :
    (newCephBlockPoolStorageClassConfiguration inst false).storageClass.meta.name =
      inst.name ++ "-ceph-rbd" := by
  show generateNameForCephBlockPoolSC inst "" = inst.name ++ "-ceph-rbd"
  simp [generateNameForCephBlockPoolSC]

theorem scName_thick (inst : StorageCluster) :
    (newCephBlockPoolStorageClassConfiguration inst true).storageClass.meta.name =
      inst.name ++ "-ceph-rbd-thick" := by
  show generateNameForCephBlockPoolSC inst "-thick" = inst.name ++ "-ceph-rbd-thick"
  show inst.name ++ "-ceph-rbd" ++ "-thick" = inst.name ++ "-ceph-rbd-thick"
  rw [String.append_assoc]
  exact congrArg (fun t => inst.name ++ t) (by decide)

theorem scName_rgw (inst : StorageCluster) :
    (newCephOBCStorageClassConfiguration inst).storageClass.meta.name =
      inst.name ++ "-ceph-rgw" := rfl

theorem scConfigNames_nodup (env : Env) (inst : StorageCluster) :
    ((StorageClusterReconciler.newStorageClassConfigurations env inst).map
      fun c => c.storageClass.meta.name).Nodup := by
  unfold StorageClusterReconciler.newStorageClassConfigurations
  split
  · simp only [List.map_append, List.map_cons, List.map_nil, scName_fs, scName_rbd,
      scName_thick, scName_rgw, List.cons_append, List.nil_append]
    show (List.map (fun t => inst.name ++ t)
      ["-cephfs", "-ceph-rbd", "-ceph-rbd-thick", "-ceph-rgw"]).Nodup
    exact List.Nodup.map (fun a b h => strAppend_left_cancel h) (by decide)
  · simp only [List.map_cons, List.map_nil, scName_fs, scName_rbd, scName_thick]
    show (List.map (fun t => inst.name ++ t)
      ["-cephfs", "-ceph-rbd", "-ceph-rbd-thick"]).Nodup
    exact List.Nodup.map (fun a b h => strAppend_left_cancel h) (by decide)

theorem scConfig_strategies (env : Env) (inst : StorageCluster)
    (h1 : inst.spec.managedResources.cephFilesystems.reconcileStrategy =
      ReconcileStrategyManage)
    (h2 : inst.spec.managedResources.cephBlockPools.reconcileStrategy =
      ReconcileStrategyManage)
    (h3 : inst.spec.managedResources.cephObjectStores.reconcileStrategy =
      ReconcileStrategyManage)
    (d1 : inst.spec.managedResources.cephFilesystems.disableStorageClass = false)
    (d2 : inst.spec.managedResources.cephBlockPools.disableStorageClass = false)
    (d3 : inst.spec.managedResources.cephObjectStores.disableStorageClass = false) :
    ∀ c ∈ StorageClusterReconciler.newStorageClassConfigurations env inst,
      ¬c.reconcileStrategy = ReconcileStrategyIgnore ∧ c.disable = false := by
  intro c hc
  unfold StorageClusterReconciler.newStorageClassConfigurations at hc
  have hfs : (newCephFilesystemStorageClassConfiguration inst).reconcileStrategy =
      inst.spec.managedResources.cephFilesystems.reconcileStrategy := rfl
  have hfsd : (newCephFilesystemStorageClassConfiguration inst).disable =
      inst.spec.managedResources.cephFilesystems.disableStorageClass := rfl
  have hbp : ∀ b, (newCephBlockPoolStorageClassConfiguration inst b).reconcileStrategy =
      inst.spec.managedResources.cephBlockPools.reconcileStrategy := fun _ => rfl
  have hbpd : ∀ b, (newCephBlockPoolStorageClassConfiguration inst b).disable =
      inst.spec.managedResources.cephBlockPools.disableStorageClass := fun _ => rfl
  have hos : (newCephOBCStorageClassConfiguration inst).reconcileStrategy =
      inst.spec.managedResources.cephObjectStores.reconcileStrategy := rfl
  have hosd : (newCephOBCStorageClassConfiguration inst).disable =
      inst.spec.managedResources.cephObjectStores.disableStorageClass := rfl
  split at hc <;> simp only [List.mem_append, List.mem_cons, List.not_mem_nil,
      List.mem_singleton, or_false] at hc
  · rcases hc with (rfl | rfl | rfl) | rfl
    · exact ⟨by rw [hfs, h1]; decide, by rw [hfsd, d1]⟩
    · exact ⟨by rw [hbp, h2]; decide, by rw [hbpd, d2]⟩
    · exact ⟨by rw [hbp, h2]; decide, by rw [hbpd, d2]⟩
    · exact ⟨by rw [hos, h3]; decide, by rw [hosd, d3]⟩
  · rcases hc with rfl | rfl | rfl
    · exact ⟨by rw [hfs, h1]; decide, by rw [hfsd, d1]⟩
    · exact ⟨by rw [hbp, h2]; decide, by rw [hbpd, d2]⟩
    · exact ⟨by rw [hbp, h2]; decide, by rw [hbpd, d2]⟩

theorem scConfig_length (env : Env) (inst : StorageCluster)
    (hext : inst.spec.externalStorage.enable = false) :
    (StorageClusterReconciler.newStorageClassConfigurations env inst).length =
      if avoidObjectStore env.platform then 3 else 4 := by
  unfold StorageClusterReconciler.newStorageClassConfigurations
    StorageClusterReconciler.PlatformsShouldAvoidObjectStore
  rw [hext]
  by_cases h : avoidObjectStore env.platform <;> simp [h]

theorem scConfig_filter_rgw (env : Env) (inst : StorageCluster)
    (hext : inst.spec.externalStorage.enable = false) :
    ((StorageClusterReconciler.newStorageClassConfigurations env inst).filter
        fun c => c.storageClass.meta.name = generateNameForCephRgwSC inst).length =
      if avoidObjectStore env.platform then 0 else 1 := by
  have e1 : ((newCephFilesystemStorageClassConfiguration inst).storageClass.meta.name =
      generateNameForCephRgwSC inst) = False :=
    eq_false (by rw [scName_fs]; exact strAppend_ne inst.name (by decide))
  have e2 : ((newCephBlockPoolStorageClassConfiguration inst false).storageClass.meta.name =
      generateNameForCephRgwSC inst) = False :=
    eq_false (by rw [scName_rbd]; exact strAppend_ne inst.name (by decide))
  have e3 : ((newCephBlockPoolStorageClassConfiguration inst true).storageClass.meta.name =
      generateNameForCephRgwSC inst) = False :=
    eq_false (by rw [scName_thick]; exact strAppend_ne inst.name (by decide))
  have e4 : ((newCephOBCStorageClassConfiguration inst).storageClass.meta.name =
      generateNameForCephRgwSC inst) = True := eq_true rfl
  unfold StorageClusterReconciler.newStorageClassConfigurations
    StorageClusterReconciler.PlatformsShouldAvoidObjectStore
  rw [hext]
  by_cases h : avoidObjectStore env.platform <;>
    simp [h, List.filter_cons, e1, e2, e3, e4]

/-- A filesystem dependency reporting Ready. -/
def fsReady : CephFilesystem :=
  { meta := { name := "ocsinit-cephfilesystem", annotations := [], ownerReferences := []
              deletionTimestamp := none }
    status := some PhaseReady }

/-- A store with both dependencies Ready and no storage classes. -/
def storeDepsReady : Store :=
  { emptyStore with
      cephBlockPools := [(generateNameForCephBlockPool instA, bpReady)]
      cephFilesystems := [(generateNameForCephFilesystem instA, fsReady)] }

/-- A fresh legacy pass state for `instA` over the empty store. -/
def rstateA : RState :=
  { inst := instA, conditions := [], monitoringIP := "", store := emptyStore, trace := [] }

/-- Claim C8, as frozen, is false: on a fresh Manage-everywhere cluster with
external mode off, dependencies Ready and a platform that does not avoid
object storage, the subsequent pass creates 4 storage classes (filesystem,
block thin, block thick, object-gateway), not 2 or 3. -/
theorem claim_C8_counterexample :
    instA.spec.externalStorage.enable = false
    ∧ avoidObjectStore envOk.platform = false
    ∧ (ocsStorageClass.ensureCreated envOk instA storeDepsReady).2.2 = none
    ∧ countOps (ocsStorageClass.ensureCreated envOk instA storeDepsReady).2.1 isCreateSC = 4
    ∧ ¬(countOps (ocsStorageClass.ensureCreated envOk instA storeDepsReady).2.1 isCreateSC = 2
        ∨ countOps (ocsStorageClass.ensureCreated envOk instA storeDepsReady).2.1
            isCreateSC = 3) := by
  decide

/-- Claim C8 (amended: 3 or 4 classes, not 2 or 3): the desired engine
cluster always carries the default monitor count 3 and the first pass
creates it as such; once the pool and filesystem dependencies report Ready,
a pass of the storage-class ensurer on a fresh Manage-everywhere,
external-off cluster creates 4 storage classes, or 3 on a platform where
object storage is avoided, the object-storage-backed class being present
exactly when the platform does not avoid object storage. -/
theorem claim_C8 :
    (∀ (sc : StorageCluster) (img : String), (newCephCluster sc img).spec.mon.count = 3)
    ∧ (∀ (img : String) (s : RState),
        objFind s.store.cephClusters s.inst.name = none →
        ∃ cc : CephCluster,
          ReconcileStorageCluster.ensureCephCluster img s =
            ({ s with
                store := { s.store with cephClusters := (objPut s.store.cephClusters
                  cc.meta.name cc) }
                trace := s.trace ++ [Op.getCephCluster cc.meta.name,
                  Op.createCephCluster cc] }, none)
          ∧ cc.spec = (newCephCluster s.inst img).spec
          ∧ cc.spec.mon.count = 3)
    ∧ (∀ (env : Env) (inst : StorageCluster) (s : Store),
        inst.spec.managedResources.cephFilesystems.reconcileStrategy =
          ReconcileStrategyManage →
        inst.spec.managedResources.cephBlockPools.reconcileStrategy =
          ReconcileStrategyManage →
        inst.spec.managedResources.cephObjectStores.reconcileStrategy =
          ReconcileStrategyManage →
        inst.spec.managedResources.cephFilesystems.disableStorageClass = false →
        inst.spec.managedResources.cephBlockPools.disableStorageClass = false →
        inst.spec.managedResources.cephObjectStores.disableStorageClass = false →
        inst.spec.externalStorage.enable = false →
        (∃ bp, objFind s.cephBlockPools (generateNameForCephBlockPool inst) = some bp
          ∧ bp.status = some PhaseReady) →
        (∃ fsys, objFind s.cephFilesystems (generateNameForCephFilesystem inst) = some fsys
          ∧ fsys.status = some PhaseReady) →
        (∀ c ∈ StorageClusterReconciler.newStorageClassConfigurations env inst,
          objFind s.storageClasses c.storageClass.meta.name = none) →
        (ocsStorageClass.ensureCreated env inst s).2.2 = none
        ∧ countOps (ocsStorageClass.ensureCreated env inst s).2.1 isCreateSC =
            (if avoidObjectStore env.platform then 3 else 4)
        ∧ countOps (ocsStorageClass.ensureCreated env inst s).2.1
              (isCreateSCNamed (generateNameForCephRgwSC inst)) =
            (if avoidObjectStore env.platform then 0 else 1)) := by
  refine ⟨fun sc img => rfl, ?_, ?_⟩
  · intro img s h
    refine ⟨{ newCephCluster s.inst img with meta :=
        { (newCephCluster s.inst img).meta with ownerReferences := [s.inst.name] } },
      ?_, rfl, rfl⟩
    unfold ReconcileStorageCluster.ensureCephCluster
    have hf : objFind s.store.cephClusters
        ({ newCephCluster s.inst img with meta :=
          { (newCephCluster s.inst img).meta with
              ownerReferences := [s.inst.name] } } : CephCluster).meta.name = none := h
    simp only [hf]
  · intro env inst s hms1 hms2 hms3 hd1 hd2 hd3 hext hbp hfs habs
    rcases hbp with ⟨bp, hbp, hbpst⟩
    rcases hfs with ⟨fsys, hfs, hfsst⟩
    have hbpass : StorageClusterReconciler.cephBlockPoolGate inst s =
        ([Op.getCephBlockPool (generateNameForCephBlockPool inst)], none) := by
      unfold StorageClusterReconciler.cephBlockPoolGate
      simp only [hbp, hbpst]
      simp [PhaseReady]
    have hfpass : StorageClusterReconciler.cephFilesystemGate inst s =
        ([Op.getCephFilesystem (generateNameForCephFilesystem inst)], none) := by
      unfold StorageClusterReconciler.cephFilesystemGate
      simp only [hfs, hfsst]
      simp [PhaseReady]
    have hall := createStorageClasses_all_absent
      (StorageClusterReconciler.newStorageClassConfigurations env inst) s
      (scConfig_strategies env inst hms1 hms2 hms3 hd1 hd2 hd3) habs
      (scConfigNames_nodup env inst)
    rcases hcs : StorageClusterReconciler.createStorageClasses
        (StorageClusterReconciler.newStorageClassConfigurations env inst) s
      with ⟨s', ops3, e3⟩
    rw [hcs] at hall
    simp only at hall
    have hrun : ocsStorageClass.ensureCreated env inst s =
        (s', Op.getCephBlockPool (generateNameForCephBlockPool inst) ::
             Op.getCephFilesystem (generateNameForCephFilesystem inst) :: ops3, e3) := by
      unfold ocsStorageClass.ensureCreated
      rw [if_neg (by rw [hd2]; exact Bool.false_ne_true), hbpass,
        if_neg (by rw [hd1]; exact Bool.false_ne_true), hfpass]
      simp only [hcs]
      simp
    rw [hrun]
    refine ⟨hall.2, ?_, ?_⟩
    · rw [show ops3 = allCreateTrace
          (StorageClusterReconciler.newStorageClassConfigurations env inst) from hall.1]
      simp [countOps_cons, isCreateSC, countOps_allCreateTrace,
        scConfig_length env inst hext]
    · rw [show ops3 = allCreateTrace
          (StorageClusterReconciler.newStorageClassConfigurations env inst) from hall.1]
      simp [countOps_cons, isCreateSCNamed, countOps_allCreateTrace_named,
        scConfig_filter_rgw env inst hext]

/-- Witness for claim C8 at the fresh Scenario-A fixtures. -/
theorem claim_C8_witness :
    (newCephCluster instA "ceph/ceph:v14").spec.mon.count = 3
    ∧ (∃ cc : CephCluster,
        ReconcileStorageCluster.ensureCephCluster "ceph/ceph:v14" rstateA =
          ({ rstateA with
              store := { rstateA.store with cephClusters := (objPut rstateA.store.cephClusters
                cc.meta.name cc) }
              trace := rstateA.trace ++ [Op.getCephCluster cc.meta.name,
                Op.createCephCluster cc] }, none)
        ∧ cc.spec = (newCephCluster rstateA.inst "ceph/ceph:v14").spec
        ∧ cc.spec.mon.count = 3)
    ∧ ((ocsStorageClass.ensureCreated envOk instA storeDepsReady).2.2 = none
      ∧ countOps (ocsStorageClass.ensureCreated envOk instA storeDepsReady).2.1 isCreateSC =
          (if avoidObjectStore envOk.platform then 3 else 4)
      ∧ countOps (ocsStorageClass.ensureCreated envOk instA storeDepsReady).2.1
            (isCreateSCNamed (generateNameForCephRgwSC instA)) =
          (if avoidObjectStore envOk.platform then 0 else 1)) :=
  ⟨claim_C8.1 instA "ceph/ceph:v14",
   claim_C8.2.1 "ceph/ceph:v14" rstateA rfl,
   claim_C8.2.2 envOk instA storeDepsReady rfl rfl rfl rfl rfl rfl rfl
     ⟨bpReady, by decide, rfl⟩ ⟨fsReady, by decide, rfl⟩ (by decide)⟩

/-! ## Claim C1 -/

theorem setCondition_mem (conds : List Condition) (c : Condition) :
    c ∈ setCondition conds c := by
  induction conds with
  | nil => simp [setCondition]
  | cons c' rest ih =>
      by_cases h : c'.ctype = c.ctype <;> simp [setCondition, h, ih]

/-- Claim C1: when an ensurer of the fixed sequence fails, the loop runs no
further ensurers (the outcome does not depend on the remaining sequence),
sets the Error phase, sets a Failed condition whose message carries the
ensurer's error text, persists the status as the final issued operation, and
returns that error to the dispatcher. -/
theorem claim_C1 (f : Ensurer) (fs fs' : List Ensurer) (s s' : RState) (e : String)
    (h : f s = (s', some e)) :
    ReconcileStorageCluster.runEnsurers (f :: fs) s =
      ReconcileStorageCluster.runEnsurers (f :: fs') s
    ∧ (ReconcileStorageCluster.runEnsurers (f :: fs) s).2 = some e
    ∧ (ReconcileStorageCluster.runEnsurers (f :: fs) s).1.inst.status.phase = PhaseError
    ∧ (∃ c ∈ (ReconcileStorageCluster.runEnsurers (f :: fs) s).1.inst.status.conditions,
        c.reason = ReconcileFailed ∧ c.message = "Error while reconciling: " ++ e)
    ∧ (ReconcileStorageCluster.runEnsurers (f :: fs) s).1.trace =
        s'.trace ++ [Op.statusUpdate (ReconcileStorageCluster.runEnsurers (f :: fs) s).1.inst] := by
  have hrun : ∀ (gs : List Ensurer),
      ReconcileStorageCluster.runEnsurers (f :: gs) s =
        ({ s' with
            inst := { s'.inst with status :=
              { s'.inst.status with
                  conditions := setErrorCondition s'.inst.status.conditions
                    ReconcileFailed ("Error while reconciling: " ++ e)
                  phase := PhaseError } }
            trace := s'.trace ++ [Op.statusUpdate
              { s'.inst with status :=
                { s'.inst.status with
                    conditions := setErrorCondition s'.inst.status.conditions
                      ReconcileFailed ("Error while reconciling: " ++ e)
                    phase := PhaseError } }] }, some e) := by
    intro gs
    unfold ReconcileStorageCluster.runEnsurers
    rw [h]
  refine ⟨by rw [hrun fs, hrun fs'], by rw [hrun fs], by rw [hrun fs], ?_, by rw [hrun fs]⟩
  rw [hrun fs]
  exact ⟨{ ctype := "ReconcileComplete", cstatus := "False", reason := ReconcileFailed
           message := "Error while reconciling: " ++ e },
    setCondition_mem s'.inst.status.conditions _, rfl, rfl⟩

/-- An ensurer that always fails. -/
def failEnsurer : Ensurer := fun s => (s, some "boom")

/-- Witness for claim C1 with a concretely failing ensurer. -/
theorem claim_C1_witness :
    ReconcileStorageCluster.runEnsurers [failEnsurer] rstateA =
      ReconcileStorageCluster.runEnsurers [failEnsurer, failEnsurer] rstateA
    ∧ (ReconcileStorageCluster.runEnsurers [failEnsurer] rstateA).2 = some "boom"
    ∧ (ReconcileStorageCluster.runEnsurers [failEnsurer] rstateA).1.inst.status.phase =
        PhaseError
    ∧ (∃ c ∈ (ReconcileStorageCluster.runEnsurers [failEnsurer] rstateA).1.inst.status.conditions,
        c.reason = ReconcileFailed ∧ c.message = "Error while reconciling: " ++ "boom")
    ∧ (ReconcileStorageCluster.runEnsurers [failEnsurer] rstateA).1.trace =
        rstateA.trace ++ [Op.statusUpdate
          (ReconcileStorageCluster.runEnsurers [failEnsurer] rstateA).1.inst] :=
  claim_C1 failEnsurer [] [failEnsurer] rstateA rstateA "boom" rfl

/-! ## Claim C7 -/

/-- Claim C7: when the engine-cluster child is present with a spec unequal to
the desired spec and some found device set has a count strictly below the
desired count for the same name, the ensurer sets the informational Expanding
phase and replaces the child's entire spec with the desired spec in one
whole-object update. -/
theorem claim_C7 (img : String) (s : RState) (found : CephCluster)
    (hfound : objFind s.store.cephClusters s.inst.name = some found)
    (hneq : (newCephCluster s.inst img).spec ≠ found.spec)
    (hexp : expandingSignal found.spec.deviceSets
      (newCephCluster s.inst img).spec.deviceSets = true) :
    ReconcileStorageCluster.ensureCephCluster img s =
      ({ s with
          inst := { s.inst with status :=
            { s.inst.status with phase := PhaseClusterExpanding } }
          store := { s.store with cephClusters := (objPut s.store.cephClusters
            s.inst.name { found with spec := (newCephCluster s.inst img).spec }) }
          trace := s.trace ++ [Op.getCephCluster s.inst.name,
            Op.updateCephCluster { found with spec := (newCephCluster s.inst img).spec }] },
       none) := by
  unfold ReconcileStorageCluster.ensureCephCluster
  have hf : objFind s.store.cephClusters
      ({ newCephCluster s.inst img with meta :=
        { (newCephCluster s.inst img).meta with
            ownerReferences := [s.inst.name] } } : CephCluster).meta.name = some found :=
    hfound
  simp only [hf]
  rw [if_pos (by simpa using hneq)]
  rw [show expandingSignal found.spec.deviceSets
      ({ newCephCluster s.inst img with meta :=
        { (newCephCluster s.inst img).meta with
            ownerReferences := [s.inst.name] } } : CephCluster).spec.deviceSets = true
    from hexp]
  simp
  exact ⟨rfl, rfl⟩

/-- A stored engine-cluster child whose device set `set0` has count 0, below
the desired count 1 of `instA`. -/
def ccFound : CephCluster :=
  { meta := { name := "ocsinit", annotations := [], ownerReferences := []
              deletionTimestamp := none }
    spec := { (newCephCluster instA "ceph/ceph:v14").spec with
        deviceSets := [{ name := "set0", count := 0, placement := "defaultOSDPlacement" }] }
    status := { state := "" } }

/-- A legacy pass state holding that child. -/
def rstateCC : RState :=
  { rstateA with store := { emptyStore with cephClusters := [("ocsinit", ccFound)] } }

/-- Witness for claim C7 at a concrete capacity increase. -/
theorem claim_C7_witness :
    objFind rstateCC.store.cephClusters rstateCC.inst.name = some ccFound
    ∧ (ReconcileStorageCluster.ensureCephCluster "ceph/ceph:v14" rstateCC).1.inst.status.phase =
        PhaseClusterExpanding
    ∧ (ReconcileStorageCluster.ensureCephCluster "ceph/ceph:v14" rstateCC).2 = none := by
  have h := claim_C7 "ceph/ceph:v14" rstateCC ccFound (by decide) (by decide) (by decide)
  exact ⟨by decide, by rw [h], by rw [h]⟩

/-! ## Frame lemmas for the external synthesizer -/

theorem createCM_frame (cm : ConfigMap) (s : RState) :
    (ReconcileStorageCluster.createExternalStorageClusterConfigMap cm s).1.inst = s.inst
    ∧ (ReconcileStorageCluster.createExternalStorageClusterConfigMap cm s).1.store.storageClasses
        = s.store.storageClasses
    ∧ (ReconcileStorageCluster.createExternalStorageClusterConfigMap
        cm s).1.store.cephObjectStores = s.store.cephObjectStores := by
  unfold ReconcileStorageCluster.createExternalStorageClusterConfigMap
  split <;> simp

theorem createSec_frame (sec : SecretObj) (s : RState) :
    (ReconcileStorageCluster.createExternalStorageClusterSecret sec s).1.inst = s.inst
    ∧ (ReconcileStorageCluster.createExternalStorageClusterSecret sec s).1.store.storageClasses
        = s.store.storageClasses
    ∧ (ReconcileStorageCluster.createExternalStorageClusterSecret
        sec s).1.store.cephObjectStores = s.store.cephObjectStores := by
  unfold ReconcileStorageCluster.createExternalStorageClusterSecret
  split <;> simp

theorem processExternalRecord_frame (env : Env) (d : ExternalResource) (acc : ExtAcc)
    (s : RState) :
    (ReconcileStorageCluster.processExternalRecord env d acc s).1.1.inst = s.inst
    ∧ (ReconcileStorageCluster.processExternalRecord env d acc s).1.1.store.storageClasses
        = s.store.storageClasses
    ∧ (ReconcileStorageCluster.processExternalRecord env d acc s).1.1.store.cephObjectStores
        = s.store.cephObjectStores := by
  unfold ReconcileStorageCluster.processExternalRecord
  repeat' split
  all_goals try exact ⟨rfl, rfl, rfl⟩
  · rcases hcm : ReconcileStorageCluster.createExternalStorageClusterConfigMap
        { meta := { name := d.name, annotations := [], ownerReferences := [s.inst.name], deletionTimestamp := none }, data := d.data } s with ⟨s', e⟩
    have h := createCM_frame
      { meta := { name := d.name, annotations := [], ownerReferences := [s.inst.name], deletionTimestamp := none }, data := d.data } s
    rw [hcm] at h
    cases e
    · simpa only [hcm] using h
    · simpa only [hcm] using h
  · rcases hsec : ReconcileStorageCluster.createExternalStorageClusterSecret
        { meta := { name := d.name, annotations := [], ownerReferences := [s.inst.name], deletionTimestamp := none }, data := d.data } s with ⟨s', e⟩
    have h := createSec_frame
      { meta := { name := d.name, annotations := [], ownerReferences := [s.inst.name], deletionTimestamp := none }, data := d.data } s
    rw [hsec] at h
    cases e
    · simpa only [hsec] using h
    · simpa only [hsec] using h
  · rcases hr : checkRGWEndpoint env ((kvFind d.data externalCephRgwEndpointKey).getD "")
      with _ | e
    · rcases ho : ReconcileStorageCluster.newExternalCephObjectStoreInstances s.inst
          ((kvFind d.data externalCephRgwEndpointKey).getD "") with e' | extStores
      · simp only [hr, ho]
        exact ⟨trivial, trivial, trivial⟩
      · simp only [hr, ho]
        exact ⟨trivial, trivial, trivial⟩
    · simp only [hr]
      exact ⟨trivial, trivial, trivial⟩

theorem processExternalRecords_frame (env : Env) (data : List ExternalResource) :
    ∀ (acc : ExtAcc) (s : RState),
    (ReconcileStorageCluster.processExternalRecords env data acc s).1.1.inst = s.inst
    ∧ (ReconcileStorageCluster.processExternalRecords env data acc s).1.1.store.storageClasses
        = s.store.storageClasses
    ∧ (ReconcileStorageCluster.processExternalRecords
        env data acc s).1.1.store.cephObjectStores = s.store.cephObjectStores := by
  induction data with
  | nil => intro acc s; simp [ReconcileStorageCluster.processExternalRecords]
  | cons d rest ih =>
      intro acc s
      have hd := processExternalRecord_frame env d acc s
      unfold ReconcileStorageCluster.processExternalRecords
      rcases hp : ReconcileStorageCluster.processExternalRecord env d acc s
        with ⟨⟨s', acc'⟩, e⟩
      rw [hp] at hd
      simp only at hd
      cases e with
      | none =>
          simp only
          have hr := ih acc' s'
          exact ⟨by rw [hr.1, hd.1], by rw [hr.2.1, hd.2.1], by rw [hr.2.2, hd.2.2]⟩
      | some e => exact hd

theorem createStorageClassesLegacy_inst (scs : List (Option StorageClass)) :
    ∀ s : RState,
      (ReconcileStorageCluster.createStorageClassesLegacy scs s).1.inst = s.inst := by
  induction scs with
  | nil => intro s; rfl
  | cons hd tl ih =>
      intro s
      unfold ReconcileStorageCluster.createStorageClassesLegacy
      cases hd with
      | none => exact ih s
      | some sc =>
          rcases h : objFind s.store.storageClasses sc.meta.name with _ | existing
          · simp only [h]
            rw [ih _]
          · simp only [h]
            split
            · rw [ih _]
            · rw [ih _]

theorem createCephObjectStoresLegacy_inst (stores : List CephObjectStore) :
    ∀ s : RState,
      (ReconcileStorageCluster.createCephObjectStoresLegacy stores s).1.inst = s.inst := by
  induction stores with
  | nil => intro s; rfl
  | cons cos tl ih =>
      intro s
      unfold ReconcileStorageCluster.createCephObjectStoresLegacy
      rcases h : objFind s.store.cephObjectStores cos.meta.name with _ | found
      · simp only [h]
        rw [ih _]
      · simp only [h]
        split
        · rw [ih _]
        · rw [ih _]

theorem setRookCSICephFS_inst (flag : Bool) (s : RState) :
    (ReconcileStorageCluster.setRookCSICephFS flag s).1.inst = s.inst := by
  unfold ReconcileStorageCluster.setRookCSICephFS
  rcases h : objFind s.store.configMaps rookCephOperatorConfigName with _ | cfg
  · simp only [h]
  · simp only [h]
    split <;> split <;> rfl

theorem retrieveExternalSecretData_state (s : RState) :
    (ReconcileStorageCluster.retrieveExternalSecretData s).1 =
      { s with trace := s.trace ++ [Op.getSecret externalClusterDetailsSecret] } := by
  unfold ReconcileStorageCluster.retrieveExternalSecretData
    ReconcileStorageCluster.retrieveSecret
  rcases h : s.store.extSecret with _ | p
  · simp [h]
  · cases p <;> simp [h]

theorem createExternal_inst (env : Env) (s : RState) :
    (ReconcileStorageCluster.createExternalStorageClusterResources env s).1.inst = s.inst := by
  unfold ReconcileStorageCluster.createExternalStorageClusterResources
  rcases hd : ReconcileStorageCluster.retrieveExternalSecretData s with ⟨s₁, r⟩
  have h₁ : s₁.inst = s.inst := by
    have hst := retrieveExternalSecretData_state s
    rw [hd] at hst
    simp only at hst
    rw [hst]
  cases r with
  | error e => simp only [hd]; exact h₁
  | ok data =>
      simp only [hd]
      rcases hp : ReconcileStorageCluster.processExternalRecords env data
          { scs := ReconcileStorageCluster.newStorageClasses s.inst
            enableRookCSICephFS := false, availFs := none, availRbd := none
            availRgw := none, extCephObjectStores := none } s₁ with ⟨⟨s₂, acc⟩, e⟩
      have h₂ : s₂.inst = s₁.inst := by
        have hf := (processExternalRecords_frame env data
          { scs := ReconcileStorageCluster.newStorageClasses s.inst
            enableRookCSICephFS := false, availFs := none, availRbd := none
            availRgw := none, extCephObjectStores := none } s₁).1
        rw [hp] at hf
        exact hf
      cases e with
      | some e => simp only [hp]; rw [h₂, h₁]
      | none =>
          simp only [hp]
          rcases hc : ReconcileStorageCluster.createStorageClassesLegacy
              [acc.availFs, acc.availRbd, acc.availRgw] s₂ with ⟨s₃, e₃⟩
          have h₃ : s₃.inst = s₂.inst := by
            have := createStorageClassesLegacy_inst [acc.availFs, acc.availRbd, acc.availRgw] s₂
            rw [hc] at this
            exact this
          cases e₃ with
          | some e => simp only [hc]; rw [h₃, h₂, h₁]
          | none =>
              simp only [hc]
              rcases hs4 : ReconcileStorageCluster.setRookCSICephFS
                  acc.enableRookCSICephFS s₃ with ⟨s₄, e₄⟩
              have h₄ : s₄.inst = s₃.inst := by
                have := setRookCSICephFS_inst acc.enableRookCSICephFS s₃
                rw [hs4] at this
                exact this
              cases e₄ with
              | some e => simp only [hs4]; rw [h₄, h₃, h₂, h₁]
              | none =>
                  simp only [hs4]
                  rcases hos : acc.extCephObjectStores with _ | stores
                  · simp only [hos]; rw [h₄, h₃, h₂, h₁]
                  · simp only [hos]
                    have := createCephObjectStoresLegacy_inst stores s₄
                    rw [this, h₄, h₃, h₂, h₁]

/-! ## Claim C4 -/

theorem sameExternalSecretData_same (s : RState) (p : ExtPayload)
    (hsec : s.store.extSecret = some p)
    (heq : s.inst.status.externalSecretHash = sha512sum p) :
    ReconcileStorageCluster.sameExternalSecretData s =
      ({ s with trace := s.trace ++ [Op.getSecret externalClusterDetailsSecret] }, true) := by
  unfold ReconcileStorageCluster.sameExternalSecretData
    ReconcileStorageCluster.externalSecretDataChecksum
    ReconcileStorageCluster.retrieveSecret
  simp only [hsec]
  rw [if_pos (by simpa using heq)]

theorem sameExternalSecretData_diff (s : RState) (p : ExtPayload)
    (hsec : s.store.extSecret = some p)
    (hne : s.inst.status.externalSecretHash ≠ sha512sum p) :
    ReconcileStorageCluster.sameExternalSecretData s =
      ({ s with
          inst := { s.inst with status := { s.inst.status with
            externalSecretHash := sha512sum p } }
          trace := s.trace ++ [Op.getSecret externalClusterDetailsSecret] }, false) := by
  unfold ReconcileStorageCluster.sameExternalSecretData
    ReconcileStorageCluster.externalSecretDataChecksum
    ReconcileStorageCluster.retrieveSecret
  simp only [hsec]
  rw [if_neg (by simpa using hne)]

/-- Claim C4: the digest of the current external-secret bytes is recomputed
on every pass; when it equals the checksum persisted in status the ensurer
returns success having issued only the secret read (zero external-record
dispatch work), and when it differs, synthesis runs (the ensurer's outcome is
exactly that of `createExternalStorageClusterResources` on the
checksum-updated state). -/
theorem claim_C4 (env : Env) (s : RState) (p : ExtPayload)
    (hsec : s.store.extSecret = some p) :
    (s.inst.status.externalSecretHash = sha512sum p →
      ReconcileStorageCluster.ensureExternalStorageClusterResources env s =
        ({ s with trace := s.trace ++ [Op.getSecret externalClusterDetailsSecret] }, none))
    ∧ (s.inst.status.externalSecretHash ≠ sha512sum p →
      ReconcileStorageCluster.ensureExternalStorageClusterResources env s =
        ReconcileStorageCluster.createExternalStorageClusterResources env
          { s with
              inst := { s.inst with status := { s.inst.status with
                externalSecretHash := sha512sum p } }
              trace := s.trace ++ [Op.getSecret externalClusterDetailsSecret] }) := by
  constructor
  · intro heq
    unfold ReconcileStorageCluster.ensureExternalStorageClusterResources
    rw [sameExternalSecretData_same s p hsec heq]
  · intro hne
    unfold ReconcileStorageCluster.ensureExternalStorageClusterResources
    rw [sameExternalSecretData_diff s p hsec hne]

/-- The empty-record-list payload. -/
def payloadEmpty : ExtPayload := ExtPayload.records []

/-- A legacy pass state whose persisted checksum matches the current
external-secret digest. -/
def rstateSame : RState :=
  { rstateA with
      inst := { instExt with status := { instExt.status with
        externalSecretHash := sha512sum payloadEmpty } }
      store := { emptyStore with extSecret := some payloadEmpty } }

/-- A legacy pass state whose persisted checksum is stale. -/
def rstateDiff : RState :=
  { rstateA with
      inst := instExt
      store := { emptyStore with extSecret := some payloadEmpty } }

/-- Witness for claim C4 on an unchanged and on a changed payload. -/
theorem claim_C4_witness :
    (ReconcileStorageCluster.ensureExternalStorageClusterResources envOk rstateSame =
      ({ rstateSame with
          trace := rstateSame.trace ++ [Op.getSecret externalClusterDetailsSecret] }, none))
    ∧ (ReconcileStorageCluster.ensureExternalStorageClusterResources envOk rstateDiff =
        ReconcileStorageCluster.createExternalStorageClusterResources envOk
          { rstateDiff with
              inst := { rstateDiff.inst with status := { rstateDiff.inst.status with
                externalSecretHash := sha512sum payloadEmpty } }
              trace := rstateDiff.trace ++ [Op.getSecret externalClusterDetailsSecret] }) :=
  ⟨(claim_C4 envOk rstateSame payloadEmpty rfl).1 rfl,
   (claim_C4 envOk rstateDiff payloadEmpty rfl).2 (by decide)⟩

/-! ## Claim C9 -/

/-- Claim C9: on a differing digest, `sameExternalSecretData` overwrites the
in-memory status checksum with the new digest before any synthesis runs;
because the orchestrator persists status even on ensurer failure, a pass
whose synthesis fails still issues a status update carrying the new checksum
(and the Error phase); the next pass with an unchanged payload and that
persisted checksum skips synthesis entirely; and a failed secret fetch makes
`sameExternalSecretData` report "changed". -/
theorem claim_C9 (env : Env) (s s₂ s₃ s₄ : RState) (p : ExtPayload) (e : String)
    (hsec : s.store.extSecret = some p)
    (hdiff : s.inst.status.externalSecretHash ≠ sha512sum p)
    (hfail : ReconcileStorageCluster.createExternalStorageClusterResources env
        { s with
            inst := { s.inst with status := { s.inst.status with
              externalSecretHash := sha512sum p } }
            trace := s.trace ++ [Op.getSecret externalClusterDetailsSecret] } = (s₂, some e))
    (h3sec : s₃.store.extSecret = some p)
    (h3hash : s₃.inst.status.externalSecretHash = sha512sum p)
    (h4sec : s₄.store.extSecret = none) :
    ReconcileStorageCluster.sameExternalSecretData s =
      ({ s with
          inst := { s.inst with status := { s.inst.status with
            externalSecretHash := sha512sum p } }
          trace := s.trace ++ [Op.getSecret externalClusterDetailsSecret] }, false)
    ∧ (∃ inst', ReconcileStorageCluster.runEnsurers
        [fun st => ReconcileStorageCluster.ensureExternalStorageClusterResources env st] s =
          ({ s₂ with inst := inst', trace := s₂.trace ++ [Op.statusUpdate inst'] }, some e)
        ∧ inst'.status.externalSecretHash = sha512sum p
        ∧ inst'.status.phase = PhaseError)
    ∧ ReconcileStorageCluster.ensureExternalStorageClusterResources env s₃ =
        ({ s₃ with trace := s₃.trace ++ [Op.getSecret externalClusterDetailsSecret] }, none)
    ∧ ReconcileStorageCluster.sameExternalSecretData s₄ =
        ({ s₄ with trace := s₄.trace ++ [Op.getSecret externalClusterDetailsSecret] },
         false) := by
  have hens : ReconcileStorageCluster.ensureExternalStorageClusterResources env s =
      (s₂, some e) := by
    unfold ReconcileStorageCluster.ensureExternalStorageClusterResources
    rw [sameExternalSecretData_diff s p hsec hdiff]
    exact hfail
  have hinst : s₂.inst.status.externalSecretHash = sha512sum p := by
    have h := createExternal_inst env
      { s with
          inst := { s.inst with status := { s.inst.status with
            externalSecretHash := sha512sum p } }
          trace := s.trace ++ [Op.getSecret externalClusterDetailsSecret] }
    rw [hfail] at h
    simp only at h
    rw [h]
  refine ⟨sameExternalSecretData_diff s p hsec hdiff, ?_, ?_, ?_⟩
  · refine ⟨{ s₂.inst with status :=
        { s₂.inst.status with
            conditions := setErrorCondition s₂.inst.status.conditions
              ReconcileFailed ("Error while reconciling: " ++ e)
            phase := PhaseError } }, ?_, hinst, rfl⟩
    unfold ReconcileStorageCluster.runEnsurers
    simp only [hens]
  · unfold ReconcileStorageCluster.ensureExternalStorageClusterResources
    rw [sameExternalSecretData_same s₃ p h3sec h3hash]
  · unfold ReconcileStorageCluster.sameExternalSecretData
      ReconcileStorageCluster.externalSecretDataChecksum
      ReconcileStorageCluster.retrieveSecret
    simp only [h4sec]

/-- A payload whose one connection-info record is missing the monitoring
endpoint, so synthesis fails. -/
def payloadMon : ExtPayload :=
  ExtPayload.records [{ kind := "CephCluster", name := "mon", data := [] }]

/-- A legacy pass state in external mode with a stale checksum over that
payload. -/
def rstateFail : RState :=
  { rstateA with inst := instExt, store := { emptyStore with extSecret := some payloadMon } }

/-- The same state after the checksum overwrite and the secret read. -/
def rstateFailUpd : RState :=
  { rstateFail with
      inst := { rstateFail.inst with status := { rstateFail.inst.status with
        externalSecretHash := sha512sum payloadMon } }
      trace := rstateFail.trace ++ [Op.getSecret externalClusterDetailsSecret] }

/-- The state in which the failing synthesis pass ends. -/
def s2Fail : RState :=
  (ReconcileStorageCluster.createExternalStorageClusterResources envOk rstateFailUpd).1

/-- The missing-monitoring-endpoint error message. -/
def eMon : String :=
  "Monitoring Endpoint not present in the external cluster secret " ++
    externalClusterDetailsSecret

/-- The next pass's state: same payload, checksum persisted by the failing
pass. -/
def rstateNext : RState :=
  { rstateFail with
      inst := { rstateFail.inst with status := { rstateFail.inst.status with
        externalSecretHash := sha512sum payloadMon } } }

/-- Witness for claim C9 at a concretely failing synthesis. -/
theorem claim_C9_witness :
    ReconcileStorageCluster.sameExternalSecretData rstateFail =
      ({ rstateFail with
          inst := { rstateFail.inst with status := { rstateFail.inst.status with
            externalSecretHash := sha512sum payloadMon } }
          trace := rstateFail.trace ++ [Op.getSecret externalClusterDetailsSecret] }, false)
    ∧ (∃ inst', ReconcileStorageCluster.runEnsurers
        [fun st => ReconcileStorageCluster.ensureExternalStorageClusterResources envOk st]
        rstateFail =
          ({ s2Fail with inst := inst', trace := s2Fail.trace ++ [Op.statusUpdate inst'] },
           some eMon)
        ∧ inst'.status.externalSecretHash = sha512sum payloadMon
        ∧ inst'.status.phase = PhaseError)
    ∧ ReconcileStorageCluster.ensureExternalStorageClusterResources envOk rstateNext =
        ({ rstateNext with
            trace := rstateNext.trace ++ [Op.getSecret externalClusterDetailsSecret] }, none)
    ∧ ReconcileStorageCluster.sameExternalSecretData rstateA =
        ({ rstateA with trace := rstateA.trace ++ [Op.getSecret externalClusterDetailsSecret] },
         false) :=
  claim_C9 envOk rstateFail s2Fail rstateNext rstateA payloadMon eMon rfl (by decide)
    (by decide) rfl rfl rfl

/-! ## Claim C2 -/

/-- A config-map record of the external payload. -/
def recCm : ExternalResource := { kind := "ConfigMap", name := "cm1", data := [("a", "b")] }

/-- A connection-info record missing the monitoring endpoint. -/
def recMon : ExternalResource := { kind := "CephCluster", name := "mon", data := [] }

/-- A payload whose first record is a config map and whose second record
fails (missing required key). -/
def payloadCmThenMissing : ExtPayload := ExtPayload.records [recCm, recMon]

/-- An external-mode pass state over that payload with a stale checksum. -/
def rstateC2 : RState :=
  { rstateA with
      inst := instExt
      store := { emptyStore with extSecret := some payloadCmThenMissing } }

/-- Claim C2, as frozen, is false: when the second record of the payload
fails with a missing required key, the whole pass fails, but the config map
synthesized from the first record has already been persisted — it exists
after the pass although it did not exist before. -/
theorem claim_C2_counterexample :
    objFind rstateC2.store.configMaps "cm1" = none
    ∧ (ReconcileStorageCluster.createExternalStorageClusterResources envOk rstateC2).2 =
        some eMon
    ∧ objFind (ReconcileStorageCluster.createExternalStorageClusterResources envOk
        rstateC2).1.store.configMaps "cm1" ≠ none := by
  decide

/-- Claim C2 (amended: atomicity holds for storage classes and object stores,
and for everything on a decode failure, but config maps and secrets from
records preceding the failing record may already be persisted): a JSON decode
failure fails the pass with the store fully unchanged, and a record-dispatch
failure (missing required key, failed probe, malformed endpoint) fails the
pass with no storage class and no object store synthesized from the payload
persisted. -/
theorem claim_C2 (env : Env) (s t : RState) (e e' : String)
    (data : List ExternalResource) (s₂ : RState) (acc : ExtAcc)
    (hdec : (ReconcileStorageCluster.retrieveExternalSecretData s).2 = Except.error e)
    (hdata : (ReconcileStorageCluster.retrieveExternalSecretData t).2 = Except.ok data)
    (hloop : ReconcileStorageCluster.processExternalRecords env data
      { scs := ReconcileStorageCluster.newStorageClasses t.inst
        enableRookCSICephFS := false, availFs := none, availRbd := none
        availRgw := none, extCephObjectStores := none }
      { t with trace := t.trace ++ [Op.getSecret externalClusterDetailsSecret] } =
      ((s₂, acc), some e')) :
    ReconcileStorageCluster.createExternalStorageClusterResources env s =
      ({ s with trace := s.trace ++ [Op.getSecret externalClusterDetailsSecret] }, some e)
    ∧ ReconcileStorageCluster.createExternalStorageClusterResources env t = (s₂, some e')
    ∧ s₂.store.storageClasses = t.store.storageClasses
    ∧ s₂.store.cephObjectStores = t.store.cephObjectStores := by
  have hstore : s₂.store.storageClasses = t.store.storageClasses
      ∧ s₂.store.cephObjectStores = t.store.cephObjectStores := by
    have hf := processExternalRecords_frame env data
      { scs := ReconcileStorageCluster.newStorageClasses t.inst
        enableRookCSICephFS := false, availFs := none, availRbd := none
        availRgw := none, extCephObjectStores := none }
      { t with trace := t.trace ++ [Op.getSecret externalClusterDetailsSecret] }
    rw [hloop] at hf
    simp only at hf
    exact ⟨hf.2.1, hf.2.2⟩
  refine ⟨?_, ?_, hstore.1, hstore.2⟩
  · unfold ReconcileStorageCluster.createExternalStorageClusterResources
    rcases hd : ReconcileStorageCluster.retrieveExternalSecretData s with ⟨s₁, r⟩
    have hs₁ : s₁ = { s with trace := s.trace ++ [Op.getSecret externalClusterDetailsSecret] } := by
      have hst := retrieveExternalSecretData_state s
      rw [hd] at hst
      exact hst
    rw [hd] at hdec
    simp only at hdec
    subst hdec
    simp only [hd, hs₁]
  · unfold ReconcileStorageCluster.createExternalStorageClusterResources
    rcases hd : ReconcileStorageCluster.retrieveExternalSecretData t with ⟨t₁, r⟩
    have ht₁ : t₁ = { t with trace := t.trace ++ [Op.getSecret externalClusterDetailsSecret] } := by
      have hst := retrieveExternalSecretData_state t
      rw [hd] at hst
      exact hst
    rw [hd] at hdata
    simp only at hdata
    subst hdata
    simp only [hd, ht₁, hloop]

/-- The state after the secret read of the claim C2 scenario. -/
def t1C2 : RState :=
  { rstateC2 with trace := rstateC2.trace ++ [Op.getSecret externalClusterDetailsSecret] }

/-- The initial dispatch accumulator of the claim C2 scenario. -/
def acc0C2 : ExtAcc :=
  { scs := ReconcileStorageCluster.newStorageClasses rstateC2.inst
    enableRookCSICephFS := false, availFs := none, availRbd := none
    availRgw := none, extCephObjectStores := none }

/-- The state in which the claim C2 record loop fails. -/
def s2C2 : RState :=
  (ReconcileStorageCluster.processExternalRecords envOk [recCm, recMon] acc0C2 t1C2).1.1

/-- The accumulator at the claim C2 loop failure. -/
def accC2 : ExtAcc :=
  (ReconcileStorageCluster.processExternalRecords envOk [recCm, recMon] acc0C2 t1C2).1.2

/-- An external-mode pass state over a malformed payload. -/
def rstateMalformed : RState :=
  { rstateA with
      inst := instExt
      store := { emptyStore with extSecret := some (ExtPayload.malformed "junk") } }

/-- Witness for claim C2 at a malformed payload and at a mid-payload
failure. -/
theorem claim_C2_witness :
    ReconcileStorageCluster.createExternalStorageClusterResources envOk rstateMalformed =
      ({ rstateMalformed with
          trace := rstateMalformed.trace ++ [Op.getSecret externalClusterDetailsSecret] },
       some "could not parse json blob")
    ∧ ReconcileStorageCluster.createExternalStorageClusterResources envOk rstateC2 =
        (s2C2, some eMon)
    ∧ s2C2.store.storageClasses = rstateC2.store.storageClasses
    ∧ s2C2.store.cephObjectStores = rstateC2.store.cephObjectStores :=
  claim_C2 envOk rstateMalformed rstateC2 "could not parse json blob" eMon
    [recCm, recMon] s2C2 accC2 rfl rfl rfl

end OCS
